import Mathlib

/-!
Verification development for the OTC desk settlement program
(`src/solana/otc-program/programs/otc/src/lib.rs`).

The Rust program is shallowly embedded:

* `u64` / `u128` values are `Nat` with explicit bound checks where the source
  uses `checked_*` arithmetic or `try_from` narrowing; `i64` values are `Int`
  with explicit range checks where the source uses `checked_add`.
* Pubkeys are `Nat`; `0` stands for `Pubkey::default()` (the all-zero key,
  which cannot sign a transaction).
* Each fallible instruction becomes a function `... → Except OtcError σ`
  returning the mutated account state on success.  An `Except.error` result
  models an aborted transaction: the on-chain state is unchanged.
* Anchor account constraints (which run before the instruction body) are
  modelled as checks performed when resolving the referenced accounts, before
  the body's `require!` chain, exactly as Anchor evaluates them.
* External collaborators (SPL token transfers, the Pyth feed reader, AMM pool
  vault balances, treasury balances, the clock) are inputs to each operation;
  their values are unconstrained, which only enlarges the set of reachable
  states, so every invariant proved here also holds for the real program.
* Fields of the on-chain accounts that no modelled instruction reads
  (deprecated `Desk.token_*` fields, feed-id byte arrays, the deprecated
  `twap_cumulative_price`) are omitted.
-/

namespace Otc

/-- `u64::MAX`. -/
def U64MAX : Nat := 2 ^ 64 - 1

/-- `u128::MAX`. -/
def U128MAX : Nat := 2 ^ 128 - 1

/-- `i64::MIN`. -/
def I64MIN : Int := -(2 ^ 63)

/-- `i64::MAX`. -/
def I64MAX : Int := 2 ^ 63 - 1

/-- The `OtcError` enum of the program (`#[error_code] pub enum OtcError`). -/
inductive OtcError where
  | UsdcDecimals
  | AmountRange
  | Discount
  | StalePrice
  | NoPrice
  | MinUsd
  | InsuffInv
  | Overflow
  | LockupTooLong
  | BadState
  | AlreadyApproved
  | NotApproved
  | Expired
  | FulfillRestricted
  | Locked
  | NotOwner
  | NotApprover
  | TooManyApprovers
  | UnsupportedCurrency
  | Paused
  | NotExpired
  | BadPrice
  | PriceDeviationTooLarge
  | FeedNotConfigured
  | TooEarlyForRefund
  | InvalidPoolProgram
  | InsufficientLiquidity
  | TwapDeviationTooLarge
  | UpdateTooFrequent
  | CommissionRange
  | NonNegotiableP2P
  deriving DecidableEq

/-- `u64` checked addition: `a.checked_add(b).ok_or(Overflow)`. -/
def checkedAddU64 (a b : Nat) : Except OtcError Nat :=
  if a + b ≤ U64MAX then .ok (a + b) else .error .Overflow

/-- `i64` checked addition: `a.checked_add(b).ok_or(Overflow)`. -/
def checkedAddI64 (a b : Int) : Except OtcError Int :=
  if I64MIN ≤ a + b ∧ a + b ≤ I64MAX then .ok (a + b) else .error .Overflow

/-- `fn pow10(exp: u32) -> u128 { 10u128.pow(exp) }`.  Exact for every
exponent the program reaches before its `u128` overflow checks fire
(`exp ≤ 38`); all theorems below stay inside that range. -/
def pow10 (exp : Nat) : Nat := 10 ^ exp

/-- `fn safe_u128_to_u64(value: u128) -> Result<u64>`:
`u64::try_from(value)` with `Overflow` on truncation. -/
def safe_u128_to_u64 (value : Nat) : Except OtcError Nat :=
  if value ≤ U64MAX then .ok value else .error .Overflow

/-- `fn mul_div_u128(a, b, d) -> Result<u128>`:
`a.checked_mul(b).and_then(|x| x.checked_div(d)).ok_or(Overflow)`.
`checked_div` returns `None` exactly when `d = 0`. -/
def mul_div_u128 (a b d : Nat) : Except OtcError Nat :=
  if a * b ≤ U128MAX then
    if d = 0 then .error .Overflow else .ok (a * b / d)
  else .error .Overflow

/-- `fn mul_div_ceil_u128(a, b, d) -> Result<u128>`: checked multiply, then
`q = prod / d; r = prod % d; if r == 0 { q } else { q + 1 }`.  The source's
plain `/` aborts the whole transaction when `d = 0`; every call site
guarantees `d > 0` and all theorems below assume it. -/
def mul_div_ceil_u128 (a b d : Nat) : Except OtcError Nat :=
  if a * b ≤ U128MAX then
    .ok (if a * b % d = 0 then a * b / d else a * b / d + 1)
  else .error .Overflow

/-- `fn check_price_deviation(old_price, new_price, max_deviation_bps)`. -/
def check_price_deviation (old_price new_price : Nat) (max_deviation_bps : Nat) :
    Except OtcError Unit :=
  if old_price = 0 ∨ max_deviation_bps = 0 then .ok ()
  else
    let diff := if new_price > old_price then new_price - old_price
                else old_price - new_price
    if diff ≤ old_price * max_deviation_bps / 10000 then .ok ()
    else .error .PriceDeviationTooLarge

/-- `fn calc_discounted_usd(token_amount, price_8d, decimals, discount_bps)`.
The subtraction `10_000 - discount_bps` is `u64` arithmetic; every caller
checks `discount_bps ≤ 10000` first, matching `Nat` truncated subtraction. -/
def calc_discounted_usd (token_amount price_8d : Nat) (decimals : Nat)
    (discount_bps : Nat) : Except OtcError Nat :=
  match mul_div_u128 token_amount price_8d (pow10 decimals) with
  | .error e => .error e
  | .ok x =>
    match safe_u128_to_u64 x with
    | .error e => .error e
    | .ok usd_8d =>
      if usd_8d * (10000 - discount_bps) ≤ U64MAX then
        .ok (usd_8d * (10000 - discount_bps) / 10000)
      else .error .Overflow

/-- `fn convert_pyth_price(price: i64, exponent: i32) -> Result<u64>`. -/
def convert_pyth_price (price : Int) (exponent : Int) : Except OtcError Nat :=
  if price ≤ 0 then .error .BadPrice
  else
    let expDiff : Int := 8 - exponent
    if expDiff ≤ 38 ∧ -38 ≤ expDiff then
      if 0 ≤ expDiff then
        if price.toNat * 10 ^ expDiff.toNat ≤ U128MAX then
          safe_u128_to_u64 (price.toNat * 10 ^ expDiff.toNat)
        else .error .Overflow
      else safe_u128_to_u64 (price.toNat / 10 ^ (-expDiff).toNat)
    else .error .BadPrice

/-- `pub enum PoolType { None, Raydium, Orca, PumpSwap }`. -/
inductive PoolType where
  | none
  | raydium
  | orca
  | pumpSwap
  deriving DecidableEq

/-- `#[account] pub struct TokenRegistry` (modelled fields; the desk pointer,
feed-id bytes and the deprecated `twap_cumulative_price` are omitted). -/
structure TokenRegistry where
  token_mint : Nat
  decimals : Nat
  pool_address : Nat
  pool_type : PoolType
  is_active : Bool
  token_usd_price_8d : Nat
  prices_updated_at : Int
  registered_by : Nat
  min_liquidity : Nat
  twap_last_timestamp : Int
  twap_last_price : Nat
  max_twap_deviation_bps : Nat
  min_update_interval_secs : Int
  deriving DecidableEq

/-- `pub fn update_token_price_from_pyth`.  The Pyth reader collaborator is
abstracted: `feed_fresh` is the outcome of `get_price_no_older_than` (age
check against `desk.max_price_age_secs`), and on success it supplies the feed
mantissa `feed_price` and `feed_exponent`. -/
def update_token_price_from_pyth (registry : TokenRegistry)
    (max_price_age_secs : Int) (feed_fresh : Bool) (feed_price : Int)
    (feed_exponent : Int) (max_price_deviation_bps : Nat) (now : Int) :
    Except OtcError TokenRegistry :=
  if ¬ (max_price_age_secs ≥ 0) then .error .AmountRange
  else if ¬ feed_fresh then .error .StalePrice
  else
    match convert_pyth_price feed_price feed_exponent with
    | .error e => .error e
    | .ok token_usd_8d =>
      match check_price_deviation registry.token_usd_price_8d token_usd_8d
          max_price_deviation_bps with
      | .error e => .error e
      | .ok _ =>
        .ok { registry with
                token_usd_price_8d := token_usd_8d
                prices_updated_at := now }

/-- `pub fn set_manual_token_price` (owner-only; the owner signature is an
account constraint checked by the host). -/
def set_manual_token_price (registry : TokenRegistry) (price_8d : Nat)
    (now : Int) : Except OtcError TokenRegistry :=
  if ¬ (price_8d > 0 ∧ price_8d ≤ 1000000000000) then .error .BadPrice
  else if ¬ registry.is_active then .error .BadState
  else .ok { registry with token_usd_price_8d := price_8d
                           prices_updated_at := now }

/-- The spot price computed by `update_token_price_from_pool`:
`amount_b * 10^8 * 10^token_decimals / (amount_a * 10^6)`. -/
def poolSpot (decimals amount_a amount_b : Nat) : Nat :=
  amount_b * 100000000 * pow10 decimals / (amount_a * pow10 6)

/-- The EMA-smoothing block of `update_token_price_from_pool`, computing the
`final_price` that the instruction stores: with a prior EMA timestamp and
smoothing enabled, `new_ema = (old_ema * weight + spot) / (weight + 1)` with
`weight = min(time_elapsed, 3600)`, gated by the TWAP deviation check;
otherwise the spot price passes through. -/
def poolFinalPrice (registry : TokenRegistry) (spot : Nat) (now : Int) :
    Except OtcError Nat :=
  if registry.twap_last_timestamp > 0 ∧ registry.max_twap_deviation_bps > 0
  then
    let time_elapsed := now - registry.twap_last_timestamp
    if time_elapsed > 0 then
      let weight := (min time_elapsed 3600).toNat
      if registry.token_usd_price_8d * weight + spot ≤ U128MAX then
        let new_ema := (registry.token_usd_price_8d * weight + spot) /
          (weight + 1)
        if new_ema ≤ U64MAX then
          let deviation := if spot > new_ema then spot - new_ema
                           else new_ema - spot
          if deviation ≤ new_ema * registry.max_twap_deviation_bps / 10000
          then .ok new_ema
          else .error .TwapDeviationTooLarge
        else .error .Overflow
      else .error .Overflow
    else .ok spot
  else .ok spot

/-- `pub fn update_token_price_from_pool`.  `pool_owner_valid` is the outcome
of the AMM program-id allow-list check (`is_raydium_program` /
`is_orca_program` / `is_pumpswap_program` on the pool account's owner);
`amount_a`, `amount_b` are the two vault balances read from the pool. -/
def update_token_price_from_pool (registry : TokenRegistry)
    (pool_owner_valid : Bool) (amount_a amount_b : Nat) (now : Int) :
    Except OtcError TokenRegistry :=
  if ¬ (registry.pool_address ≠ 0) then .error .FeedNotConfigured
  else if ¬ registry.is_active then .error .BadState
  else if registry.prices_updated_at > 0 ∧
      ¬ (now - registry.prices_updated_at ≥ registry.min_update_interval_secs)
    then .error .UpdateTooFrequent
  else if registry.pool_type = PoolType.none then .error .InvalidPoolProgram
  else if ¬ pool_owner_valid then .error .InvalidPoolProgram
  else if ¬ (amount_a > 0 ∧ amount_b > 0) then .error .StalePrice
  else if registry.min_liquidity > 0 ∧ ¬ (amount_b ≥ registry.min_liquidity)
    then .error .InsufficientLiquidity
  else if ¬ (amount_b * 100000000 * pow10 registry.decimals ≤ U128MAX)
    then .error .Overflow
  else if ¬ (amount_a * pow10 6 ≤ U128MAX) then .error .Overflow
  else if ¬ (poolSpot registry.decimals amount_a amount_b ≤ U64MAX)
    then .error .Overflow
  else if ¬ (poolSpot registry.decimals amount_a amount_b > 0)
    then .error .BadPrice
  else
    match poolFinalPrice registry (poolSpot registry.decimals amount_a
        amount_b) now with
    | .error e => .error e
    | .ok final_price =>
      .ok { registry with
              twap_last_price := poolSpot registry.decimals amount_a amount_b
              twap_last_timestamp := now
              token_usd_price_8d := final_price
              prices_updated_at := now }

/-- The smoothed price of the specification: `newEma =
⌊(oldEma * weight + spot) / (weight + 1)⌋` with
`weight = min(now - lastTimestamp, 3600)` (weight `0` when `now` equals the
last timestamp). -/
def emaPrice (r : TokenRegistry) (a b : Nat) (now : Int) : Nat :=
  (r.token_usd_price_8d * (min (now - r.twap_last_timestamp) 3600).toNat +
    poolSpot r.decimals a b) /
    ((min (now - r.twap_last_timestamp) 3600).toNat + 1)

/-- `#[account] pub struct Desk` (modelled fields; the deprecated
`token_mint`/`token_decimals`/`token_deposited`/`token_reserved` block and
the feed-id byte arrays are omitted — no modelled instruction reads them). -/
structure Desk where
  owner : Nat
  agent : Nat
  usdc_mint : Nat
  usdc_decimals : Nat
  min_usd_amount_8d : Nat
  quote_expiry_secs : Int
  max_price_age_secs : Int
  restrict_fulfill : Bool
  approvers : List Nat
  next_consignment_id : Nat
  next_offer_id : Nat
  paused : Bool
  sol_usd_price_8d : Nat
  prices_updated_at : Int
  token_usd_price_8d : Nat
  default_unlock_delay_secs : Int
  max_lockup_secs : Int
  max_token_per_order : Nat
  emergency_refund_enabled : Bool
  emergency_refund_deadline_secs : Int
  p2p_commission_bps : Nat
  deriving DecidableEq, Inhabited

/-- `#[account] pub struct Consignment` (desk pointer omitted: the model
tracks a single desk and Anchor's `consignment.desk == desk.key()`
constraints are therefore always satisfied). -/
structure Consignment where
  id : Nat
  token_mint : Nat
  consigner : Nat
  total_amount : Nat
  remaining_amount : Nat
  is_negotiable : Bool
  fixed_discount_bps : Nat
  fixed_lockup_days : Nat
  min_discount_bps : Nat
  max_discount_bps : Nat
  min_lockup_days : Nat
  max_lockup_days : Nat
  min_deal_amount : Nat
  max_deal_amount : Nat
  is_fractionalized : Bool
  is_private : Bool
  max_price_volatility_bps : Nat
  max_time_to_execute_secs : Int
  is_active : Bool
  created_at : Int
  deriving DecidableEq, Inhabited

/-- `#[account] pub struct Offer` (desk pointer omitted, as for
`Consignment`). -/
structure Offer where
  consignment_id : Nat
  token_mint : Nat
  token_decimals : Nat
  id : Nat
  beneficiary : Nat
  token_amount : Nat
  discount_bps : Nat
  created_at : Int
  unlock_time : Int
  price_usd_per_token_8d : Nat
  max_price_deviation_bps : Nat
  sol_usd_price_8d : Nat
  currency : Nat
  approved : Bool
  paid : Bool
  fulfilled : Bool
  cancelled : Bool
  payer : Nat
  amount_paid : Nat
  agent_commission_bps : Nat
  deriving DecidableEq, Inhabited

/-- The mutable program state of one desk: the `Desk` account together with
every `Consignment` and `Offer` account created for it (accounts are never
deleted; operations address them by position in these lists). -/
structure OtcState where
  desk : Desk
  consignments : List Consignment
  offers : List Offer
  deriving DecidableEq, Inhabited

/-- `pub fn init_desk`. -/
def init_desk (owner agent usdc_mint : Nat) (usdc_decimals : Nat)
    (min_usd_amount_8d : Nat) (quote_expiry_secs : Int) :
    Except OtcError OtcState :=
  if ¬ (agent ≠ 0) then .error .BadState
  else if ¬ (min_usd_amount_8d > 0) then .error .AmountRange
  else if ¬ (quote_expiry_secs ≥ 60) then .error .AmountRange
  else if ¬ (usdc_decimals = 6) then .error .UsdcDecimals
  else .ok
    { desk :=
        { owner := owner
          agent := agent
          usdc_mint := usdc_mint
          usdc_decimals := usdc_decimals
          min_usd_amount_8d := min_usd_amount_8d
          quote_expiry_secs := quote_expiry_secs
          max_price_age_secs := 3600
          restrict_fulfill := false
          approvers := []
          next_consignment_id := 1
          next_offer_id := 1
          paused := false
          sol_usd_price_8d := 0
          prices_updated_at := 0
          token_usd_price_8d := 0
          default_unlock_delay_secs := 0
          max_lockup_secs := 365 * 86400
          max_token_per_order := U64MAX
          emergency_refund_enabled := false
          emergency_refund_deadline_secs := 30 * 86400
          p2p_commission_bps := 25 }
      consignments := []
      offers := [] }

/-- `pub fn transfer_owner`.  The `TransferOwnership` accounts struct is not
present in `src/`; per the function's doc comment ("Only the current owner
can call this") the caller must be the desk owner. -/
def transfer_owner (s : OtcState) (caller new_owner : Nat) :
    Except OtcError OtcState :=
  if ¬ (caller = s.desk.owner) then .error .NotOwner
  else if ¬ (new_owner ≠ 0) then .error .BadState
  else .ok { s with desk := { s.desk with owner := new_owner } }

/-- `pub fn set_prices` (context `OnlyOwnerDesk`: `has_one = owner`). -/
def set_prices (s : OtcState) (caller : Nat) (token_usd_8d sol_usd_8d : Nat)
    (max_age : Int) (now : Int) : Except OtcError OtcState :=
  if ¬ (caller = s.desk.owner) then .error .NotOwner
  else if ¬ (max_age ≥ 0) then .error .AmountRange
  else if ¬ (token_usd_8d > 0 ∧ token_usd_8d ≤ 1000000000000) then
    .error .BadPrice
  else if ¬ (sol_usd_8d ≥ 1000000 ∧ sol_usd_8d ≤ 10000000000000) then
    .error .BadPrice
  else .ok { s with desk :=
    { s.desk with
        token_usd_price_8d := token_usd_8d
        sol_usd_price_8d := sol_usd_8d
        prices_updated_at := now
        max_price_age_secs := max_age } }

/-- `pub fn set_limits` (`OnlyOwnerDesk`). -/
def set_limits (s : OtcState) (caller : Nat) (min_usd_amount_8d : Nat)
    (max_token_per_order : Nat) (quote_expiry_secs : Int)
    (default_unlock_delay_secs : Int) (max_lockup_secs : Int) :
    Except OtcError OtcState :=
  if ¬ (caller = s.desk.owner) then .error .NotOwner
  else if ¬ (min_usd_amount_8d > 0) then .error .AmountRange
  else if ¬ (max_token_per_order > 0) then .error .AmountRange
  else if ¬ (quote_expiry_secs ≥ 60) then .error .AmountRange
  else if ¬ (max_lockup_secs ≥ 0) then .error .AmountRange
  else if ¬ (default_unlock_delay_secs ≥ 0 ∧
      default_unlock_delay_secs ≤ max_lockup_secs) then .error .AmountRange
  else .ok { s with desk :=
    { s.desk with
        min_usd_amount_8d := min_usd_amount_8d
        max_token_per_order := max_token_per_order
        quote_expiry_secs := quote_expiry_secs
        default_unlock_delay_secs := default_unlock_delay_secs
        max_lockup_secs := max_lockup_secs } }

/-- `pub fn set_agent` (`OnlyOwnerDesk`). -/
def set_agent (s : OtcState) (caller new_agent : Nat) :
    Except OtcError OtcState :=
  if ¬ (caller = s.desk.owner) then .error .NotOwner
  else if ¬ (new_agent ≠ 0) then .error .BadState
  else .ok { s with desk := { s.desk with agent := new_agent } }

/-- `pub fn set_restrict_fulfill` (`OnlyOwnerDesk`). -/
def set_restrict_fulfill (s : OtcState) (caller : Nat) (enabled : Bool) :
    Except OtcError OtcState :=
  if ¬ (caller = s.desk.owner) then .error .NotOwner
  else .ok { s with desk := { s.desk with restrict_fulfill := enabled } }

/-- `pub fn pause` (`OnlyOwnerDesk`). -/
def pauseDesk (s : OtcState) (caller : Nat) : Except OtcError OtcState :=
  if ¬ (caller = s.desk.owner) then .error .NotOwner
  else .ok { s with desk := { s.desk with paused := true } }

/-- `pub fn unpause` (`OnlyOwnerDesk`). -/
def unpauseDesk (s : OtcState) (caller : Nat) : Except OtcError OtcState :=
  if ¬ (caller = s.desk.owner) then .error .NotOwner
  else .ok { s with desk := { s.desk with paused := false } }

/-- `pub fn set_approver` (`OnlyOwnerDesk`). -/
def set_approver (s : OtcState) (caller who : Nat) (allowed : Bool) :
    Except OtcError OtcState :=
  if ¬ (caller = s.desk.owner) then .error .NotOwner
  else if allowed then
    if who ∈ s.desk.approvers then .ok s
    else if s.desk.approvers.length < 32 then
      .ok { s with desk :=
        { s.desk with approvers := s.desk.approvers ++ [who] } }
    else .error .TooManyApprovers
  else .ok { s with desk :=
    { s.desk with approvers := s.desk.approvers.erase who } }

/-- `pub fn set_emergency_refund` (`OnlyOwnerDesk`; no validation of the
deadline). -/
def set_emergency_refund (s : OtcState) (caller : Nat) (enabled : Bool)
    (deadline_secs : Int) : Except OtcError OtcState :=
  if ¬ (caller = s.desk.owner) then .error .NotOwner
  else .ok { s with desk :=
    { s.desk with
        emergency_refund_enabled := enabled
        emergency_refund_deadline_secs := deadline_secs } }

/-- `pub fn set_p2p_commission` (`OnlyOwnerDesk`). -/
def set_p2p_commission (s : OtcState) (caller : Nat) (bps : Nat) :
    Except OtcError OtcState :=
  if ¬ (caller = s.desk.owner) then .error .NotOwner
  else if ¬ (bps ≤ 500) then .error .CommissionRange
  else .ok { s with desk := { s.desk with p2p_commission_bps := bps } }

/-- `pub fn create_consignment`.  The reservation transfer from the
consigner's token account into desk custody is an external-collaborator call
and is not tracked. -/
def create_consignment (s : OtcState) (consigner : Nat) (token_mint : Nat)
    (amount : Nat) (is_negotiable : Bool)
    (fixed_discount_bps fixed_lockup_days : Nat)
    (min_discount_bps max_discount_bps : Nat)
    (min_lockup_days max_lockup_days : Nat)
    (min_deal_amount max_deal_amount : Nat)
    (is_fractionalized is_private : Bool) (max_price_volatility_bps : Nat)
    (max_time_to_execute_secs : Int) (now : Int) : Except OtcError OtcState :=
  if s.desk.paused then .error .Paused
  else if ¬ (amount > 0) then .error .AmountRange
  else if ¬ (min_deal_amount ≤ max_deal_amount) then .error .AmountRange
  else if ¬ (min_discount_bps ≤ max_discount_bps) then .error .Discount
  else if ¬ (max_discount_bps ≤ 10000) then .error .Discount
  else if ¬ (fixed_discount_bps ≤ 10000) then .error .Discount
  else if ¬ (min_lockup_days ≤ max_lockup_days) then .error .LockupTooLong
  else
    match checkedAddU64 s.desk.next_consignment_id 1 with
    | .error e => .error e
    | .ok next =>
      .ok { s with
              desk := { s.desk with next_consignment_id := next }
              consignments := s.consignments ++
                [{ id := s.desk.next_consignment_id
                   token_mint := token_mint
                   consigner := consigner
                   total_amount := amount
                   remaining_amount := amount
                   is_negotiable := is_negotiable
                   fixed_discount_bps := fixed_discount_bps
                   fixed_lockup_days := fixed_lockup_days
                   min_discount_bps := min_discount_bps
                   max_discount_bps := max_discount_bps
                   min_lockup_days := min_lockup_days
                   max_lockup_days := max_lockup_days
                   min_deal_amount := min_deal_amount
                   max_deal_amount := max_deal_amount
                   is_fractionalized := is_fractionalized
                   is_private := is_private
                   max_price_volatility_bps := max_price_volatility_bps
                   max_time_to_execute_secs := max_time_to_execute_secs
                   is_active := true
                   created_at := now }] }

/-- `pub fn create_offer` (standalone offer; `registry` is the
`TokenRegistry` account supplied for pricing). -/
def create_offer (s : OtcState) (beneficiary : Nat) (registry : TokenRegistry)
    (token_amount : Nat) (discount_bps : Nat) (currency : Nat)
    (lockup_secs : Int) (now : Int) : Except OtcError OtcState :=
  if s.desk.paused then .error .Paused
  else if ¬ registry.is_active then .error .BadState
  else if ¬ (currency = 0 ∨ currency = 1) then .error .UnsupportedCurrency
  else if ¬ (token_amount > 0) then .error .AmountRange
  else if ¬ (discount_bps ≤ 10000) then .error .Discount
  else if ¬ (registry.token_usd_price_8d > 0) then .error .NoPrice
  else if registry.prices_updated_at > 0 ∧
      ¬ (now - registry.prices_updated_at ≤ s.desk.max_price_age_secs) then
    .error .StalePrice
  else
    match calc_discounted_usd token_amount registry.token_usd_price_8d
        registry.decimals discount_bps with
    | .error e => .error e
    | .ok total_usd_disc =>
      if ¬ (total_usd_disc ≥ s.desk.min_usd_amount_8d) then .error .MinUsd
      else if ¬ (lockup_secs ≥ s.desk.default_unlock_delay_secs ∧
          lockup_secs ≤ s.desk.max_lockup_secs) then .error .AmountRange
      else
        match checkedAddU64 s.desk.next_offer_id 1 with
        | .error e => .error e
        | .ok next =>
          match checkedAddI64 now lockup_secs with
          | .error e => .error e
          | .ok unlock_time =>
            .ok { s with
                    desk := { s.desk with next_offer_id := next }
                    offers := s.offers ++
                      [{ consignment_id := 0
                         token_mint := registry.token_mint
                         token_decimals := registry.decimals
                         id := s.desk.next_offer_id
                         beneficiary := beneficiary
                         token_amount := token_amount
                         discount_bps := discount_bps
                         created_at := now
                         unlock_time := unlock_time
                         price_usd_per_token_8d := registry.token_usd_price_8d
                         max_price_deviation_bps := 0
                         sol_usd_price_8d :=
                           if currency = 0 then s.desk.sol_usd_price_8d else 0
                         currency := currency
                         approved := false
                         paid := false
                         fulfilled := false
                         cancelled := false
                         payer := 0
                         amount_paid := 0
                         agent_commission_bps := 0 }] }

/-- `pub fn create_offer_from_consignment`.  `ci` is the position of the
`Consignment` account passed in the context; `consignment_id` is the raw
instruction argument.  Note that the source never checks that the argument
equals `consignment.id` — the argument is stored into the offer verbatim
while the account at `ci` is the one debited. -/
def create_offer_from_consignment (s : OtcState) (beneficiary : Nat)
    (ci : Nat) (registry : TokenRegistry) (consignment_id : Nat)
    (token_amount : Nat) (discount_bps : Nat) (currency : Nat)
    (lockup_secs : Int) (agent_commission_bps : Nat) (now : Int) :
    Except OtcError OtcState :=
  match s.consignments[ci]? with
  | none => .error .BadState
  | some c =>
    if s.desk.paused then .error .Paused
    else if ¬ (currency = 0 ∨ currency = 1) then .error .UnsupportedCurrency
    else if ¬ c.is_active then .error .BadState
    else if c.is_private ∧ ¬ (beneficiary = c.consigner ∨
        beneficiary = s.desk.owner ∨ beneficiary = s.desk.agent ∨
        beneficiary ∈ s.desk.approvers) then .error .FulfillRestricted
    else if ¬ (token_amount ≥ c.min_deal_amount ∧
        token_amount ≤ c.max_deal_amount) then .error .AmountRange
    else if ¬ (token_amount ≤ c.remaining_amount) then .error .InsuffInv
    else
      match (if c.is_negotiable then
          if ¬ (discount_bps ≥ c.min_discount_bps ∧
              discount_bps ≤ c.max_discount_bps) then .error .Discount
          else if ¬ (Int.tdiv lockup_secs 86400 ≥ (c.min_lockup_days : Int) ∧
              Int.tdiv lockup_secs 86400 ≤ (c.max_lockup_days : Int)) then
            .error .LockupTooLong
          else if ¬ (agent_commission_bps ≥ 25 ∧ agent_commission_bps ≤ 150)
            then .error .CommissionRange
          else .ok agent_commission_bps
        else
          if ¬ (discount_bps = c.fixed_discount_bps) then .error .Discount
          else if ¬ (Int.tdiv lockup_secs 86400 = (c.fixed_lockup_days : Int))
            then .error .LockupTooLong
          else .ok s.desk.p2p_commission_bps :
            Except OtcError Nat) with
      | .error e => .error e
      | .ok effective_commission_bps =>
        if ¬ (registry.token_mint = c.token_mint) then .error .BadState
        else if ¬ (registry.token_usd_price_8d > 0) then .error .NoPrice
        else if registry.prices_updated_at > 0 ∧
            ¬ (now - registry.prices_updated_at ≤ s.desk.max_price_age_secs)
          then .error .StalePrice
        else
          match calc_discounted_usd token_amount registry.token_usd_price_8d
              registry.decimals discount_bps with
          | .error e => .error e
          | .ok total_usd_disc =>
            if ¬ (total_usd_disc ≥ s.desk.min_usd_amount_8d) then
              .error .MinUsd
            else
              match checkedAddU64 s.desk.next_offer_id 1 with
              | .error e => .error e
              | .ok next =>
                match checkedAddI64 now lockup_secs with
                | .error e => .error e
                | .ok unlock_time =>
                  let remaining := c.remaining_amount - token_amount
                  .ok { s with
                          desk := { s.desk with next_offer_id := next }
                          consignments := s.consignments.set ci
                            { c with
                                remaining_amount := remaining
                                is_active :=
                                  if remaining = 0 then false
                                  else c.is_active }
                          offers := s.offers ++
                            [{ consignment_id := consignment_id
                               token_mint := c.token_mint
                               token_decimals := registry.decimals
                               id := s.desk.next_offer_id
                               beneficiary := beneficiary
                               token_amount := token_amount
                               discount_bps := discount_bps
                               created_at := now
                               unlock_time := unlock_time
                               price_usd_per_token_8d :=
                                 registry.token_usd_price_8d
                               max_price_deviation_bps :=
                                 c.max_price_volatility_bps
                               sol_usd_price_8d :=
                                 if currency = 0 then s.desk.sol_usd_price_8d
                                 else 0
                               currency := currency
                               approved := ¬ c.is_negotiable
                               paid := false
                               fulfilled := false
                               cancelled := false
                               payer := 0
                               amount_paid := 0
                               agent_commission_bps :=
                                 effective_commission_bps }] }

/-- `pub fn withdraw_consignment`. -/
def withdraw_consignment (s : OtcState) (consigner : Nat) (ci : Nat) :
    Except OtcError OtcState :=
  match s.consignments[ci]? with
  | none => .error .BadState
  | some c =>
    if ¬ (c.consigner = consigner) then .error .NotOwner
    else if ¬ c.is_active then .error .BadState
    else if ¬ (c.remaining_amount > 0) then .error .AmountRange
    else .ok { s with consignments := (s.consignments.set ci
      { c with is_active := false, remaining_amount := 0 }) }

/-- The optional commission payout in the two fulfill instructions: when a
commission is owed and a destination account is supplied, that account must
belong to `desk.agent`; an absent destination never blocks payment. -/
def commissionDestOk (commission : Nat) (dest : Option Nat) (agent : Nat) :
    Except OtcError Unit :=
  if commission > 0 then
    match dest with
    | some w => if w = agent then .ok () else .error .BadState
    | none => .ok ()
  else .ok ()

/-- Authorization shared by `cancel_offer` and
`cancel_offer_with_consignment`: the beneficiary only after quote expiry;
owner, agent and approvers at any time. -/
def cancelAuth (desk : Desk) (o : Offer) (caller : Nat) (now : Int) :
    Except OtcError Unit :=
  if caller = o.beneficiary then
    match checkedAddI64 o.created_at desk.quote_expiry_secs with
    | .error e => .error e
    | .ok expiry => if now ≥ expiry then .ok () else .error .NotExpired
  else if caller = desk.owner ∨ caller = desk.agent ∨
      caller ∈ desk.approvers then .ok ()
  else .error .NotApprover

/-- `pub fn approve_offer`.  The Anchor constraints of `ApproveOffer`
(`consignment.id == offer.consignment_id`) are checked when the accounts are
resolved, before the body. -/
def approve_offer (s : OtcState) (approver : Nat) (oi ci : Nat) :
    Except OtcError OtcState :=
  match s.offers[oi]? with
  | none => .error .BadState
  | some o =>
    match s.consignments[ci]? with
    | none => .error .BadState
    | some c =>
      if ¬ (c.id = o.consignment_id) then .error .BadState
      else if s.desk.paused then .error .Paused
      else if ¬ (approver = s.desk.agent ∨ approver ∈ s.desk.approvers) then
        .error .NotApprover
      else if ¬ (¬ o.cancelled ∧ ¬ o.paid) then .error .BadState
      else if o.approved then .error .AlreadyApproved
      else if ¬ c.is_negotiable then .error .NonNegotiableP2P
      else .ok { s with offers := s.offers.set oi { o with approved := true } }

/-- `pub fn cancel_offer`. -/
def cancel_offer (s : OtcState) (caller : Nat) (oi : Nat) (now : Int) :
    Except OtcError OtcState :=
  match s.offers[oi]? with
  | none => .error .BadState
  | some o =>
    if s.desk.paused then .error .Paused
    else if ¬ (¬ o.paid ∧ ¬ o.fulfilled) then .error .BadState
    else
      match cancelAuth s.desk o caller now with
      | .error e => .error e
      | .ok _ =>
        .ok { s with offers := s.offers.set oi { o with cancelled := true } }

/-- `pub fn cancel_offer_with_consignment`.  The `CancelOfferWithConsignment`
constraint `consignment.id == offer.consignment_id` is checked first. -/
def cancel_offer_with_consignment (s : OtcState) (caller : Nat) (oi ci : Nat)
    (now : Int) : Except OtcError OtcState :=
  match s.offers[oi]? with
  | none => .error .BadState
  | some o =>
    match s.consignments[ci]? with
    | none => .error .BadState
    | some c =>
      if ¬ (c.id = o.consignment_id) then .error .BadState
      else if s.desk.paused then .error .Paused
      else if ¬ (¬ o.paid ∧ ¬ o.fulfilled ∧ ¬ o.cancelled) then
        .error .BadState
      else if ¬ (o.consignment_id > 0) then .error .BadState
      else
        match cancelAuth s.desk o caller now with
        | .error e => .error e
        | .ok _ =>
          match checkedAddU64 c.remaining_amount o.token_amount with
          | .error e => .error e
          | .ok restored =>
            .ok { s with
                    offers := s.offers.set oi { o with cancelled := true }
                    consignments := s.consignments.set ci
                      { c with remaining_amount := restored
                               is_active := true } }

/-- `pub fn fulfill_offer_usdc`.  `treasury_amount` is the desk token
treasury balance and `agent_usdc_ata_owner` the owner of the optional
agent commission account; both are external account data. -/
def fulfill_offer_usdc (s : OtcState) (payer : Nat) (oi : Nat)
    (treasury_amount : Nat) (agent_usdc_ata_owner : Option Nat) (now : Int) :
    Except OtcError OtcState :=
  match s.offers[oi]? with
  | none => .error .BadState
  | some o =>
    if s.desk.paused then .error .Paused
    else if ¬ (o.currency = 1) then .error .BadState
    else if ¬ o.approved then .error .NotApproved
    else if ¬ (¬ o.cancelled ∧ ¬ o.paid ∧ ¬ o.fulfilled) then .error .BadState
    else
      match checkedAddI64 o.created_at s.desk.quote_expiry_secs with
      | .error e => .error e
      | .ok expiry =>
        if ¬ (now ≤ expiry) then .error .Expired
        else if ¬ (treasury_amount ≥ o.token_amount) then .error .InsuffInv
        else if s.desk.restrict_fulfill ∧ ¬ (payer = o.beneficiary ∨
            payer = s.desk.owner ∨ payer = s.desk.agent ∨
            payer ∈ s.desk.approvers) then .error .FulfillRestricted
        else
          match calc_discounted_usd o.token_amount o.price_usd_per_token_8d
              o.token_decimals o.discount_bps with
          | .error e => .error e
          | .ok usd_8d =>
            match mul_div_ceil_u128 usd_8d 1000000 100000000 with
            | .error e => .error e
            | .ok amt128 =>
              match safe_u128_to_u64 amt128 with
              | .error e => .error e
              | .ok usdc_amount =>
                if ¬ (usd_8d * o.agent_commission_bps ≤ U64MAX) then
                  .error .Overflow
                else
                  match mul_div_u128 (usd_8d * o.agent_commission_bps / 10000)
                      1000000 100000000 with
                  | .error e => .error e
                  | .ok c128 =>
                    match safe_u128_to_u64 c128 with
                    | .error e => .error e
                    | .ok commission_usdc =>
                      match commissionDestOk commission_usdc
                          agent_usdc_ata_owner s.desk.agent with
                      | .error e => .error e
                      | .ok _ =>
                        .ok { s with offers := (s.offers.set oi
                          { o with amount_paid := usdc_amount
                                   payer := payer
                                   paid := true }) }

/-- `pub fn fulfill_offer_sol`.  `agent_account` is the optional agent
payout account's key. -/
def fulfill_offer_sol (s : OtcState) (payer : Nat) (oi : Nat)
    (treasury_amount : Nat) (agent_account : Option Nat) (now : Int) :
    Except OtcError OtcState :=
  match s.offers[oi]? with
  | none => .error .BadState
  | some o =>
    if s.desk.paused then .error .Paused
    else if ¬ (o.currency = 0) then .error .BadState
    else if ¬ o.approved then .error .NotApproved
    else if ¬ (¬ o.cancelled ∧ ¬ o.paid ∧ ¬ o.fulfilled) then .error .BadState
    else
      match checkedAddI64 o.created_at s.desk.quote_expiry_secs with
      | .error e => .error e
      | .ok expiry =>
        if ¬ (now ≤ expiry) then .error .Expired
        else if ¬ (treasury_amount ≥ o.token_amount) then .error .InsuffInv
        else if s.desk.restrict_fulfill ∧ ¬ (payer = o.beneficiary ∨
            payer = s.desk.owner ∨ payer = s.desk.agent ∨
            payer ∈ s.desk.approvers) then .error .FulfillRestricted
        else
          match calc_discounted_usd o.token_amount o.price_usd_per_token_8d
              o.token_decimals o.discount_bps with
          | .error e => .error e
          | .ok usd_8d =>
            let sol_usd := if o.sol_usd_price_8d > 0 then o.sol_usd_price_8d
                           else s.desk.sol_usd_price_8d
            if ¬ (sol_usd > 0) then .error .NoPrice
            else
              match mul_div_ceil_u128 usd_8d 1000000000 sol_usd with
              | .error e => .error e
              | .ok amt128 =>
                match safe_u128_to_u64 amt128 with
                | .error e => .error e
                | .ok lamports_req =>
                  if ¬ (usd_8d * o.agent_commission_bps ≤ U64MAX) then
                    .error .Overflow
                  else
                    match mul_div_u128
                        (usd_8d * o.agent_commission_bps / 10000)
                        1000000000 sol_usd with
                    | .error e => .error e
                    | .ok c128 =>
                      match safe_u128_to_u64 c128 with
                      | .error e => .error e
                      | .ok commission_lamports =>
                        match commissionDestOk commission_lamports
                            agent_account s.desk.agent with
                        | .error e => .error e
                        | .ok _ =>
                          .ok { s with offers := (s.offers.set oi
                            { o with amount_paid := lamports_req
                                     payer := payer
                                     paid := true }) }

/-- `pub fn claim`.  `beneficiary` is the account passed in the context,
validated against `offer.beneficiary`; the desk keypair co-signature is a
host-level requirement. -/
def claimOffer (s : OtcState) (beneficiary : Nat) (oi : Nat) (now : Int) :
    Except OtcError OtcState :=
  match s.offers[oi]? with
  | none => .error .BadState
  | some o =>
    if s.desk.paused then .error .Paused
    else if ¬ (beneficiary = o.beneficiary) then .error .NotOwner
    else if ¬ (o.paid ∧ ¬ o.cancelled ∧ ¬ o.fulfilled) then .error .BadState
    else if ¬ (now ≥ o.unlock_time) then .error .Locked
    else .ok { s with offers := s.offers.set oi { o with fulfilled := true } }

/-- `pub fn emergency_refund_sol`.  The lamport refund to `offer.payer` is an
external transfer and is not tracked. -/
def emergency_refund_sol (s : OtcState) (caller : Nat) (oi : Nat)
    (now : Int) : Except OtcError OtcState :=
  match s.offers[oi]? with
  | none => .error .BadState
  | some o =>
    if ¬ s.desk.emergency_refund_enabled then .error .BadState
    else if ¬ (o.paid ∧ ¬ o.fulfilled ∧ ¬ o.cancelled) then .error .BadState
    else if ¬ (o.currency = 0) then .error .BadState
    else
      match checkedAddI64 o.created_at s.desk.emergency_refund_deadline_secs
        with
      | .error e => .error e
      | .ok deadline =>
        match checkedAddI64 o.unlock_time (30 * 86400) with
        | .error e => .error e
        | .ok unlock_deadline =>
          if ¬ (now ≥ deadline ∨ now ≥ unlock_deadline) then
            .error .TooEarlyForRefund
          else if ¬ (caller = o.payer ∨ caller = o.beneficiary ∨
              caller = s.desk.owner ∨ caller = s.desk.agent ∨
              caller ∈ s.desk.approvers) then .error .NotOwner
          else .ok { s with offers := (s.offers.set oi
            { o with cancelled := true }) }

/-- `pub fn emergency_refund_usdc`.  The USDC refund transfer is external. -/
def emergency_refund_usdc (s : OtcState) (caller : Nat) (oi : Nat)
    (now : Int) : Except OtcError OtcState :=
  match s.offers[oi]? with
  | none => .error .BadState
  | some o =>
    if ¬ s.desk.emergency_refund_enabled then .error .BadState
    else if ¬ (o.paid ∧ ¬ o.fulfilled ∧ ¬ o.cancelled) then .error .BadState
    else if ¬ (o.currency = 1) then .error .BadState
    else
      match checkedAddI64 o.created_at s.desk.emergency_refund_deadline_secs
        with
      | .error e => .error e
      | .ok deadline =>
        match checkedAddI64 o.unlock_time (30 * 86400) with
        | .error e => .error e
        | .ok unlock_deadline =>
          if ¬ (now ≥ deadline ∨ now ≥ unlock_deadline) then
            .error .TooEarlyForRefund
          else if ¬ (caller = o.payer ∨ caller = o.beneficiary ∨
              caller = s.desk.owner ∨ caller = s.desk.agent ∨
              caller ∈ s.desk.approvers) then .error .NotOwner
          else .ok { s with offers := (s.offers.set oi
            { o with cancelled := true }) }

/-- One invocation of a state-mutating desk instruction, with all of its
instruction arguments and external account data. -/
inductive Op where
  | transferOwner (caller new_owner : Nat)
  | setPrices (caller token_usd_8d sol_usd_8d : Nat) (max_age now : Int)
  | setLimits (caller : Nat) (min_usd_amount_8d max_token_per_order : Nat)
      (quote_expiry_secs default_unlock_delay_secs max_lockup_secs : Int)
  | setAgent (caller new_agent : Nat)
  | setRestrictFulfill (caller : Nat) (enabled : Bool)
  | pause (caller : Nat)
  | unpause (caller : Nat)
  | setApprover (caller who : Nat) (allowed : Bool)
  | setEmergencyRefund (caller : Nat) (enabled : Bool) (deadline_secs : Int)
  | setP2pCommission (caller bps : Nat)
  | createConsignment (consigner token_mint amount : Nat)
      (is_negotiable : Bool)
      (fixed_discount_bps fixed_lockup_days : Nat)
      (min_discount_bps max_discount_bps : Nat)
      (min_lockup_days max_lockup_days : Nat)
      (min_deal_amount max_deal_amount : Nat)
      (is_fractionalized is_private : Bool)
      (max_price_volatility_bps : Nat)
      (max_time_to_execute_secs now : Int)
  | createOffer (beneficiary : Nat) (registry : TokenRegistry)
      (token_amount discount_bps currency : Nat) (lockup_secs now : Int)
  | createOfferFromConsignment (beneficiary ci : Nat)
      (registry : TokenRegistry)
      (consignment_id token_amount discount_bps currency : Nat)
      (lockup_secs : Int) (agent_commission_bps : Nat) (now : Int)
  | withdrawConsignment (consigner ci : Nat)
  | approveOffer (approver oi ci : Nat)
  | cancelOffer (caller oi : Nat) (now : Int)
  | cancelOfferWithConsignment (caller oi ci : Nat) (now : Int)
  | fulfillOfferUsdc (payer oi treasury_amount : Nat)
      (agent_usdc_ata_owner : Option Nat) (now : Int)
  | fulfillOfferSol (payer oi treasury_amount : Nat)
      (agent_account : Option Nat) (now : Int)
  | claim (beneficiary oi : Nat) (now : Int)
  | emergencyRefundSol (caller oi : Nat) (now : Int)
  | emergencyRefundUsdc (caller oi : Nat) (now : Int)

/-- Dispatch an operation to its instruction handler. -/
def applyOp (op : Op) (s : OtcState) : Except OtcError OtcState :=
  match op with
  | .transferOwner caller new_owner => transfer_owner s caller new_owner
  | .setPrices caller t sol max_age now => set_prices s caller t sol max_age now
  | .setLimits caller m mt q d ml => set_limits s caller m mt q d ml
  | .setAgent caller a => set_agent s caller a
  | .setRestrictFulfill caller e => set_restrict_fulfill s caller e
  | .pause caller => pauseDesk s caller
  | .unpause caller => unpauseDesk s caller
  | .setApprover caller who allowed => set_approver s caller who allowed
  | .setEmergencyRefund caller e d => set_emergency_refund s caller e d
  | .setP2pCommission caller bps => set_p2p_commission s caller bps
  | .createConsignment cg tm a neg fd fl mind maxd minl maxl mina maxa fr pr
      vol exec now =>
    create_consignment s cg tm a neg fd fl mind maxd minl maxl mina maxa fr pr
      vol exec now
  | .createOffer b reg a d c l now => create_offer s b reg a d c l now
  | .createOfferFromConsignment b ci reg cid a d c l acb now =>
    create_offer_from_consignment s b ci reg cid a d c l acb now
  | .withdrawConsignment cg ci => withdraw_consignment s cg ci
  | .approveOffer ap oi ci => approve_offer s ap oi ci
  | .cancelOffer caller oi now => cancel_offer s caller oi now
  | .cancelOfferWithConsignment caller oi ci now =>
    cancel_offer_with_consignment s caller oi ci now
  | .fulfillOfferUsdc payer oi t ata now =>
    fulfill_offer_usdc s payer oi t ata now
  | .fulfillOfferSol payer oi t ag now => fulfill_offer_sol s payer oi t ag now
  | .claim b oi now => claimOffer s b oi now
  | .emergencyRefundSol caller oi now => emergency_refund_sol s caller oi now
  | .emergencyRefundUsdc caller oi now => emergency_refund_usdc s caller oi now

/-- Host-level signature requirement: the `payer` of a fulfill instruction is
a transaction `Signer`, and the all-zero default pubkey has no private key,
so it can never sign. -/
def sigOk : Op → Prop
  | .fulfillOfferUsdc payer _ _ _ _ => payer ≠ 0
  | .fulfillOfferSol payer _ _ _ _ => payer ≠ 0
  | _ => True

/-- One successful state transition. -/
def StepRel (s s' : OtcState) : Prop :=
  ∃ op, sigOk op ∧ applyOp op s = .ok s'

/-- A state is reachable when it arises from a successful `init_desk` by any
sequence of successful operations. -/
inductive Reachable : OtcState → Prop where
  | init (owner agent usdc_mint usdc_decimals min_usd_amount_8d : Nat)
      (quote_expiry_secs : Int) (s : OtcState)
      (h : init_desk owner agent usdc_mint usdc_decimals min_usd_amount_8d
        quote_expiry_secs = .ok s) : Reachable s
  | step (s s' : OtcState) (op : Op) (hr : Reachable s) (hs : sigOk op)
      (h : applyOp op s = .ok s') : Reachable s'

/-- Per-offer invariant: terminal flags are mutually exclusive, `fulfilled`
only after payment, payment records a positive amount and a real payer, and
the frozen quote fields always re-evaluate to the positive discounted USD
value checked at creation. -/
def offerOk (o : Offer) : Prop :=
  (o.fulfilled = true → o.paid = true) ∧
  (o.fulfilled = true → o.cancelled = false) ∧
  (o.paid = true → 0 < o.amount_paid ∧ o.payer ≠ 0) ∧
  (∃ u, calc_discounted_usd o.token_amount o.price_usd_per_token_8d
    o.token_decimals o.discount_bps = .ok u ∧ 0 < u)

/-- The inductive state invariant. -/
def Inv (s : OtcState) : Prop :=
  0 < s.desk.min_usd_amount_8d ∧
  1 ≤ s.desk.next_consignment_id ∧
  (∀ o ∈ s.offers, offerOk o) ∧
  (∀ c ∈ s.consignments, 1 ≤ c.id)

/-- A transition that touches only desk configuration: the offer and
consignment lists are untouched, a positive minimum-USD setting stays
positive, and the consignment counter never decreases. -/
def DeskOnly (s s' : OtcState) : Prop :=
  s'.offers = s.offers ∧ s'.consignments = s.consignments ∧
  (0 < s.desk.min_usd_amount_8d → 0 < s'.desk.min_usd_amount_8d) ∧
  s.desk.next_consignment_id ≤ s'.desk.next_consignment_id

/-- Extract the success state of an operation, keeping the previous state on
error (used only to name the concrete states of the example executions). -/
def getOk (r : Except OtcError OtcState) : OtcState :=
  match r with
  | .ok t => t
  | .error _ => default

/-- The pricing registry used by the example executions. -/
def regR : TokenRegistry :=
  { token_mint := 7
    decimals := 0
    pool_address := 0
    pool_type := .none
    is_active := true
    token_usd_price_8d := 100000000
    prices_updated_at := 0
    registered_by := 3
    min_liquidity := 0
    twap_last_timestamp := 0
    twap_last_price := 0
    max_twap_deviation_bps := 0
    min_update_interval_secs := 60 }

/-- A pool-priced registry with smoothing enabled, used by the C9 witness. -/
def regPool : TokenRegistry :=
  { token_mint := 7
    decimals := 0
    pool_address := 11
    pool_type := .raydium
    is_active := true
    token_usd_price_8d := 100
    prices_updated_at := 1
    registered_by := 3
    min_liquidity := 0
    twap_last_timestamp := 1
    twap_last_price := 100
    max_twap_deviation_bps := 5000
    min_update_interval_secs := 30 }

/-- `regPool` with a stale high EMA and a 1-bps deviation bound, so that a
spot price of 100 trips the TWAP deviation gate. -/
def regPoolBad : TokenRegistry :=
  { regPool with token_usd_price_8d := 1000000, max_twap_deviation_bps := 1 }

/-- Example execution: freshly initialised desk (owner 1, agent 2). -/
def exS0 : OtcState := getOk (init_desk 1 2 9 6 1 60)

/-- After the owner publishes token and SOL prices. -/
def exS1 : OtcState := getOk (set_prices exS0 1 100000000 100000000 3600 0)

/-- After consigner 3 lists a fixed-term consignment of 10 units (id 1). -/
def exS2 : OtcState :=
  getOk (create_consignment exS1 3 7 10 false 0 0 0 0 0 0 0 10 false false 0
    0 0)

/-- After consigner 3 lists a second consignment of 5 units (id 2). -/
def exS3 : OtcState :=
  getOk (create_consignment exS2 3 7 5 false 0 0 0 0 0 0 0 10 false false 0
    0 0)

/-- After beneficiary 4 creates an offer debiting consignment account 0
(id 1) while passing `consignment_id = 2` as the raw argument — the source
never checks the two against each other. -/
def exS4 : OtcState :=
  getOk (create_offer_from_consignment exS3 4 0 regR 2 10 0 0 0 0 0)

/-- After payer 5 pays the (auto-approved) offer in SOL. -/
def exS5 : OtcState := getOk (fulfill_offer_sol exS4 5 0 10 none 0)

/-- After the owner enables emergency refunds with a 100-second deadline. -/
def exS6 : OtcState := getOk (set_emergency_refund exS5 1 true 100)

/-- Branch of the example execution for the consignment-accounting bug:
cancelling the mismatched offer restores its 10 units into consignment
account 1 (id 2, total 5). -/
def exB5 : OtcState := getOk (cancel_offer_with_consignment exS4 1 0 1 0)

/-- Branch: beneficiary 4 creates a standalone offer on the priced desk. -/
def exC2 : OtcState := getOk (create_offer exS1 4 regR 1 0 1 0 0)

/-- Branch: the owner cancels the standalone offer. -/
def exC3 : OtcState := getOk (cancel_offer exC2 1 0 0)

/-- Branch: the owner pauses the priced desk. -/
def exP2 : OtcState := getOk (pauseDesk exS1 1)

/-- Branch: a further price update succeeds on the paused desk. -/
def exP3 : OtcState := getOk (set_prices exP2 1 100000000 100000000 3600 5)

/-- After the payer triggers an emergency SOL refund on `exS6` at time
100. -/
def exRef : OtcState := getOk (emergency_refund_sol exS6 5 0 100)

/-- `exS4` with the pause flag raised (used to witness the pause gate). -/
def exPW : OtcState := { exS4 with desk := { exS4.desk with paused := true } }

/-! ### Arithmetic helper lemmas -/

lemma pow10_pos (e : Nat) : 0 < pow10 e := by
  unfold pow10
  exact pow_pos (by norm_num) e

/-- Success characterisation of `calc_discounted_usd`. -/
lemma calc_discounted_usd_ok_iff (a p dec d u : Nat) :
    calc_discounted_usd a p dec d = .ok u ↔
      a * p ≤ U128MAX ∧ a * p / pow10 dec ≤ U64MAX ∧
      a * p / pow10 dec * (10000 - d) ≤ U64MAX ∧
      u = a * p / pow10 dec * (10000 - d) / 10000 := by
  have h0 : ¬ pow10 dec = 0 := (pow10_pos dec).ne'
  by_cases h1 : a * p ≤ U128MAX
  · by_cases h2 : a * p / pow10 dec ≤ U64MAX
    · by_cases h3 : a * p / pow10 dec * (10000 - d) ≤ U64MAX
      · simp [calc_discounted_usd, mul_div_u128, safe_u128_to_u64, h0, h1, h2,
          h3, eq_comm]
      · simp [calc_discounted_usd, mul_div_u128, safe_u128_to_u64, h0, h1, h2,
          h3]
    · simp [calc_discounted_usd, mul_div_u128, safe_u128_to_u64, h0, h1, h2]
  · simp [calc_discounted_usd, mul_div_u128, safe_u128_to_u64, h0, h1]

/-- A positive product stays positive through `mul_div_ceil_u128`. -/
lemma mul_div_ceil_u128_pos {a b d c : Nat}
    (h : mul_div_ceil_u128 a b d = .ok c) (hab : 0 < a * b) : 0 < c := by
  unfold mul_div_ceil_u128 at h
  split at h
  · rename_i hle
    rw [← Except.ok.inj h]
    rcases Nat.eq_zero_or_pos d with rfl | hd
    · rw [if_neg (by rw [Nat.mod_zero]; omega)]
      exact Nat.succ_pos _
    · split
      · rename_i hmod
        exact Nat.div_pos (Nat.le_of_dvd hab (Nat.dvd_of_mod_eq_zero hmod)) hd
      · exact Nat.succ_pos _
  · cases h

/-- C6: on every pair of valid inputs (`discountBps ≤ 10000`, token decimals
within the range where the source's `pow10` is exact) on which
`calc_discounted_usd` succeeds, the result is non-decreasing in the amount
and in the price, non-increasing in the discount, and with a zero discount it
is exactly `⌊amount * price / 10^decimals⌋`. -/
theorem c6_calc_discounted_usd_monotone_exact :
    (∀ a a' p dec d u u', d ≤ 10000 → dec ≤ 38 → a ≤ a' →
      calc_discounted_usd a p dec d = .ok u →
      calc_discounted_usd a' p dec d = .ok u' → u ≤ u') ∧
    (∀ a p p' dec d u u', d ≤ 10000 → dec ≤ 38 → p ≤ p' →
      calc_discounted_usd a p dec d = .ok u →
      calc_discounted_usd a p' dec d = .ok u' → u ≤ u') ∧
    (∀ a p dec d d' u u', d ≤ d' → d' ≤ 10000 → dec ≤ 38 →
      calc_discounted_usd a p dec d = .ok u →
      calc_discounted_usd a p dec d' = .ok u' → u' ≤ u) ∧
    (∀ a p dec u, calc_discounted_usd a p dec 0 = .ok u →
      u = a * p / pow10 dec) := by
  refine ⟨?_, ?_, ?_, ?_⟩
  · intro a a' p dec d u u' _ _ hle h1 h2
    rw [calc_discounted_usd_ok_iff] at h1 h2
    obtain ⟨-, -, -, rfl⟩ := h1
    obtain ⟨-, -, -, rfl⟩ := h2
    exact Nat.div_le_div_right (Nat.mul_le_mul
      (Nat.div_le_div_right (Nat.mul_le_mul hle (le_refl p))) (le_refl _))
  · intro a p p' dec d u u' _ _ hle h1 h2
    rw [calc_discounted_usd_ok_iff] at h1 h2
    obtain ⟨-, -, -, rfl⟩ := h1
    obtain ⟨-, -, -, rfl⟩ := h2
    exact Nat.div_le_div_right (Nat.mul_le_mul
      (Nat.div_le_div_right (Nat.mul_le_mul (le_refl a) hle)) (le_refl _))
  · intro a p dec d d' u u' hdd _ _ h1 h2
    rw [calc_discounted_usd_ok_iff] at h1 h2
    obtain ⟨-, -, -, rfl⟩ := h1
    obtain ⟨-, -, -, rfl⟩ := h2
    exact Nat.div_le_div_right (Nat.mul_le_mul (le_refl _) (by omega))
  · intro a p dec u h
    rw [calc_discounted_usd_ok_iff] at h
    obtain ⟨-, -, -, rfl⟩ := h
    simp [Nat.mul_div_cancel]

/-- Witness for C6 at concrete inputs (price $1, 0 decimals). -/
theorem c6_witness :
    ((10000 : Nat) ≤ 10000 ∧ (0 : Nat) ≤ 38 ∧ (1 : Nat) ≤ 2 ∧
      calc_discounted_usd 1 100000000 0 0 = .ok 100000000 ∧
      calc_discounted_usd 2 100000000 0 0 = .ok 200000000) ∧
    (100000000 : Nat) ≤ 200000000 ∧
    (50000000 : Nat) ≤ 100000000 ∧
    (100000000 : Nat) = 1 * 100000000 / pow10 0 := by
  refine ⟨⟨by norm_num, by norm_num, by norm_num, by rfl, by rfl⟩, ?_, ?_, ?_⟩
  · exact c6_calc_discounted_usd_monotone_exact.1 1 2 100000000 0 0 _ _
      (by norm_num) (by norm_num) (by norm_num) (by rfl) (by rfl)
  · exact c6_calc_discounted_usd_monotone_exact.2.2.1 1 100000000 0 0 5000 _ _
      (by norm_num) (by norm_num) (by norm_num) (by rfl) (by rfl)
  · exact c6_calc_discounted_usd_monotone_exact.2.2.2 1 100000000 0 _ (by rfl)

/-- C7: whenever the payer-side ceiling conversion and the commission-side
floor conversion both succeed on the same `(x, numerator, denominator)`, the
ceiling result is at least the floor result, with equality exactly when
`x * numerator` is an exact multiple of the denominator. -/
theorem c7_ceil_ge_floor :
    ∀ x n d c f, 0 < d →
      mul_div_ceil_u128 x n d = .ok c → mul_div_u128 x n d = .ok f →
      f ≤ c ∧ (c = f ↔ d ∣ x * n) := by
  intro x n d c f hd hc hf
  unfold mul_div_ceil_u128 at hc
  unfold mul_div_u128 at hf
  split at hc
  · rename_i hle
    rw [if_pos hle, if_neg hd.ne'] at hf
    have hf' := Except.ok.inj hf
    have hc' := Except.ok.inj hc
    subst hf'
    by_cases hmod : x * n % d = 0
    · rw [if_pos hmod] at hc'
      subst hc'
      exact ⟨le_refl _, by simp [Nat.dvd_of_mod_eq_zero hmod]⟩
    · rw [if_neg hmod] at hc'
      subst hc'
      refine ⟨Nat.le_succ _, ?_⟩
      constructor
      · intro h
        omega
      · intro h
        exact absurd (Nat.mod_eq_zero_of_dvd h) hmod
  · cases hc

/-- Witness for C7: with denominator 7, `3 * 5 = 15` is not a multiple, so
the ceiling conversion strictly exceeds the floor conversion. -/
theorem c7_witness :
    (0 : Nat) < 7 ∧ mul_div_ceil_u128 3 5 7 = .ok 3 ∧
    mul_div_u128 3 5 7 = .ok 2 ∧
    ((2 : Nat) ≤ 3 ∧ ((3 : Nat) = 2 ↔ (7 : Nat) ∣ 3 * 5)) :=
  ⟨by norm_num, by rfl, by rfl,
    c7_ceil_ge_floor 3 5 7 3 2 (by norm_num) (by rfl) (by rfl)⟩

/-- C8: the deviation gate accepts exactly when the old price is zero, the
bound is zero, or `|new - old| * 10000 ≤ old * maxBps`, and otherwise fails
with `PriceDeviationTooLarge`; a Pyth price update that passes the gate
stores the converted feed price exactly (stamping `now`), and one whose gate
fails aborts with `PriceDeviationTooLarge`, leaving the registry unchanged. -/
theorem c8_price_deviation_gate :
    (∀ old new bps, check_price_deviation old new bps = .ok () ↔
      (old = 0 ∨ bps = 0 ∨
        (if new > old then new - old else old - new) * 10000 ≤ old * bps)) ∧
    (∀ old new bps, check_price_deviation old new bps = .ok () ∨
      check_price_deviation old new bps = .error .PriceDeviationTooLarge) ∧
    (∀ r age fresh p e bps now r',
      update_token_price_from_pyth r age fresh p e bps now = .ok r' →
      ∃ v, convert_pyth_price p e = .ok v ∧
        check_price_deviation r.token_usd_price_8d v bps = .ok () ∧
        r'.token_usd_price_8d = v ∧ r'.prices_updated_at = now) ∧
    (∀ r age p e bps now v, age ≥ 0 → convert_pyth_price p e = .ok v →
      check_price_deviation r.token_usd_price_8d v bps =
        .error .PriceDeviationTooLarge →
      update_token_price_from_pyth r age true p e bps now =
        .error .PriceDeviationTooLarge) := by
  have hgate : ∀ old new bps : Nat,
      check_price_deviation old new bps = .ok () ↔
      (old = 0 ∨ bps = 0 ∨
        (if new > old then new - old else old - new) * 10000 ≤ old * bps) := by
    intro old new bps
    simp only [check_price_deviation]
    generalize (if new > old then new - old else old - new) = D
    split
    · rename_i h0
      exact iff_of_true rfl (by tauto)
    · rename_i h0
      push_neg at h0
      split
      · rename_i hle
        exact ⟨fun _ =>
          Or.inr (Or.inr ((Nat.le_div_iff_mul_le (by norm_num)).mp hle)),
          fun _ => rfl⟩
      · rename_i hgt
        refine ⟨fun h => Except.noConfusion h, fun h => ?_⟩
        rcases h with h | h | h
        · exact absurd h h0.1
        · exact absurd h h0.2
        · exact absurd ((Nat.le_div_iff_mul_le (by norm_num)).mpr h) hgt
  refine ⟨hgate, ?_, ?_, ?_⟩
  · intro old new bps
    simp only [check_price_deviation]
    split
    · exact Or.inl rfl
    · generalize (if new > old then new - old else old - new) = D
      split
      · exact Or.inl rfl
      · exact Or.inr rfl
  · intro r age fresh p e bps now r' h
    unfold update_token_price_from_pyth at h
    split at h
    · cases h
    · split at h
      · cases h
      · split at h
        · cases h
        · rename_i v hv
          split at h
          · cases h
          · rename_i u hu
            refine ⟨v, hv, ?_, ?_, ?_⟩
            · cases u
              exact hu
            · rw [← Except.ok.inj h]
            · rw [← Except.ok.inj h]
  · intro r age p e bps now v hage hv hfail
    unfold update_token_price_from_pyth
    rw [if_neg (not_not_intro hage), if_neg (by simp), hv]
    dsimp only
    rw [hfail]

/-- Witness for C8: old price 100, bound 100 bps, new price 102 (2% > 1%)
is rejected; new price 101 is accepted and stored. -/
theorem c8_witness :
    ((check_price_deviation 100 101 100 = .ok () ↔
        ((100 : Nat) = 0 ∨ (100 : Nat) = 0 ∨
          (if 101 > 100 then 101 - 100 else 100 - 101) * 10000 ≤
            100 * 100)) ∧
      (0 : Int) ≥ 0 ∧ convert_pyth_price 102 8 = .ok 102 ∧
      check_price_deviation 100 102 100 = .error .PriceDeviationTooLarge) ∧
    update_token_price_from_pyth
      { token_mint := 7, decimals := 0, pool_address := 0,
        pool_type := .none, is_active := true, token_usd_price_8d := 100,
        prices_updated_at := 0, registered_by := 3, min_liquidity := 0,
        twap_last_timestamp := 0, twap_last_price := 0,
        max_twap_deviation_bps := 0, min_update_interval_secs := 60 }
      0 true 102 8 100 5 = .error .PriceDeviationTooLarge :=
  ⟨⟨c8_price_deviation_gate.1 100 101 100, by norm_num, by rfl, by rfl⟩,
    c8_price_deviation_gate.2.2.2
      { token_mint := 7, decimals := 0, pool_address := 0,
        pool_type := .none, is_active := true, token_usd_price_8d := 100,
        prices_updated_at := 0, registered_by := 3, min_liquidity := 0,
        twap_last_timestamp := 0, twap_last_price := 0,
        max_twap_deviation_bps := 0, min_update_interval_secs := 60 }
      0 102 8 100 5 102 (by norm_num) (by rfl) (by rfl)⟩


/-- Success elimination for the guard shell of
`update_token_price_from_pool`: on success the stored registry carries the
`poolFinalPrice` result, the spot price, and the `now` timestamps. -/
lemma update_pool_ok_elim {r : TokenRegistry} {valid : Bool} {a b : Nat}
    {now : Int} {r' : TokenRegistry}
    (h : update_token_price_from_pool r valid a b now = .ok r') :
    ∃ final, poolFinalPrice r (poolSpot r.decimals a b) now = .ok final ∧
      r' = { r with twap_last_price := poolSpot r.decimals a b
                    twap_last_timestamp := now
                    token_usd_price_8d := final
                    prices_updated_at := now } := by
  unfold update_token_price_from_pool at h
  by_cases g1 : ¬ (r.pool_address ≠ 0)
  · rw [if_pos g1] at h
    cases h
  rw [if_neg g1] at h
  by_cases g2 : ¬ r.is_active
  · rw [if_pos g2] at h
    cases h
  rw [if_neg g2] at h
  by_cases g3 : r.prices_updated_at > 0 ∧
      ¬ (now - r.prices_updated_at ≥ r.min_update_interval_secs)
  · rw [if_pos g3] at h
    cases h
  rw [if_neg g3] at h
  by_cases g4 : r.pool_type = PoolType.none
  · rw [if_pos g4] at h
    cases h
  rw [if_neg g4] at h
  by_cases g5 : ¬ valid
  · rw [if_pos g5] at h
    cases h
  rw [if_neg g5] at h
  by_cases g6 : ¬ (a > 0 ∧ b > 0)
  · rw [if_pos g6] at h
    cases h
  rw [if_neg g6] at h
  by_cases g7 : r.min_liquidity > 0 ∧ ¬ (b ≥ r.min_liquidity)
  · rw [if_pos g7] at h
    cases h
  rw [if_neg g7] at h
  by_cases g8 : ¬ (b * 100000000 * pow10 r.decimals ≤ U128MAX)
  · rw [if_pos g8] at h
    cases h
  rw [if_neg g8] at h
  by_cases g9 : ¬ (a * pow10 6 ≤ U128MAX)
  · rw [if_pos g9] at h
    cases h
  rw [if_neg g9] at h
  by_cases g10 : ¬ (poolSpot r.decimals a b ≤ U64MAX)
  · rw [if_pos g10] at h
    cases h
  rw [if_neg g10] at h
  by_cases g11 : ¬ (poolSpot r.decimals a b > 0)
  · rw [if_pos g11] at h
    cases h
  rw [if_neg g11] at h
  split at h
  · cases h
  · rename_i final hfp
    exact ⟨final, hfp, (Except.ok.inj h).symm⟩

/-- C9: in a pool-driven update with a prior EMA timestamp and smoothing
enabled (`max_twap_deviation_bps > 0`), under a monotone clock the stored
price becomes `⌊(oldEma * weight + spot) / (weight + 1)⌋` with
`weight = min(now - lastTimestamp, 3600)`; the update fails with
`TwapDeviationTooLarge` when the spot price deviates from that smoothed
price by more than `max_twap_deviation_bps`; and with no prior EMA or
smoothing disabled the spot price is stored directly. -/
theorem c9_pool_ema_smoothing :
    (∀ r valid a b now r', r.twap_last_timestamp > 0 →
      r.max_twap_deviation_bps > 0 → now ≥ r.twap_last_timestamp →
      update_token_price_from_pool r valid a b now = .ok r' →
      r'.token_usd_price_8d = emaPrice r a b now ∧
      r'.prices_updated_at = now ∧ r'.twap_last_timestamp = now ∧
      r'.twap_last_price = poolSpot r.decimals a b) ∧
    (∀ r valid a b now,
      r.pool_address ≠ 0 → r.is_active = true →
      (r.prices_updated_at > 0 →
        now - r.prices_updated_at ≥ r.min_update_interval_secs) →
      r.pool_type ≠ PoolType.none → valid = true → 0 < a → 0 < b →
      (r.min_liquidity > 0 → b ≥ r.min_liquidity) →
      b * 100000000 * pow10 r.decimals ≤ U128MAX →
      a * pow10 6 ≤ U128MAX →
      poolSpot r.decimals a b ≤ U64MAX → 0 < poolSpot r.decimals a b →
      r.twap_last_timestamp > 0 → r.max_twap_deviation_bps > 0 →
      0 < now - r.twap_last_timestamp →
      r.token_usd_price_8d * (min (now - r.twap_last_timestamp) 3600).toNat +
        poolSpot r.decimals a b ≤ U128MAX →
      emaPrice r a b now ≤ U64MAX →
      (if poolSpot r.decimals a b > emaPrice r a b now
        then poolSpot r.decimals a b - emaPrice r a b now
        else emaPrice r a b now - poolSpot r.decimals a b) * 10000 >
        emaPrice r a b now * r.max_twap_deviation_bps →
      update_token_price_from_pool r valid a b now =
        .error .TwapDeviationTooLarge) ∧
    (∀ r valid a b now r',
      ¬ (r.twap_last_timestamp > 0 ∧ r.max_twap_deviation_bps > 0) →
      update_token_price_from_pool r valid a b now = .ok r' →
      r'.token_usd_price_8d = poolSpot r.decimals a b ∧
      r'.prices_updated_at = now) := by
  refine ⟨?_, ?_, ?_⟩
  · intro r valid a b now r' h1 h2 h3 hok
    obtain ⟨final, hfp, rfl⟩ := update_pool_ok_elim hok
    refine ⟨?_, rfl, rfl, rfl⟩
    show final = emaPrice r a b now
    simp only [poolFinalPrice] at hfp
    rw [if_pos ⟨h1, h2⟩] at hfp
    split at hfp
    · rename_i hte
      repeat' split at hfp
      all_goals try cases hfp
      all_goals rfl
    · rename_i hte
      have hz : now - r.twap_last_timestamp = 0 := by omega
      rw [← Except.ok.inj hfp]
      unfold emaPrice
      rw [hz]
      norm_num
  · intro r valid a b now h1 h2 h3 h4 h5 h6 h7 h8 h9 h10 h11 h12 h13 h14 h15
      h16 h17 h18
    have hdev : ¬ ((if poolSpot r.decimals a b > emaPrice r a b now
        then poolSpot r.decimals a b - emaPrice r a b now
        else emaPrice r a b now - poolSpot r.decimals a b) ≤
        emaPrice r a b now * r.max_twap_deviation_bps / 10000) := by
      intro hc
      have := (Nat.le_div_iff_mul_le (k := 10000) (by norm_num)).mp hc
      omega
    have hfp : poolFinalPrice r (poolSpot r.decimals a b) now =
        .error .TwapDeviationTooLarge := by
      simp only [poolFinalPrice]
      rw [if_pos ⟨h13, h14⟩, if_pos h15, if_pos h16]
      rw [show ((r.token_usd_price_8d *
          (min (now - r.twap_last_timestamp) 3600).toNat +
          poolSpot r.decimals a b) /
          ((min (now - r.twap_last_timestamp) 3600).toNat + 1)) =
          emaPrice r a b now from rfl]
      rw [if_pos h17, if_neg hdev]
    unfold update_token_price_from_pool
    rw [if_neg (not_not_intro h1), if_neg (not_not_intro h2),
      if_neg (fun hc => hc.2 (h3 hc.1)), if_neg h4,
      if_neg (not_not_intro h5), if_neg (not_not_intro ⟨h6, h7⟩),
      if_neg (fun hc => hc.2 (h8 hc.1)), if_neg (not_not_intro h9),
      if_neg (not_not_intro h10), if_neg (not_not_intro h11),
      if_neg (not_not_intro h12), hfp]
  · intro r valid a b now r' hsm hok
    obtain ⟨final, hfp, rfl⟩ := update_pool_ok_elim hok
    refine ⟨?_, rfl⟩
    show final = poolSpot r.decimals a b
    simp only [poolFinalPrice] at hfp
    rw [if_neg hsm] at hfp
    exact (Except.ok.inj hfp).symm

/-- Witness for C9: a smoothed update on `regPool` stores the EMA price and
restamps the registry, and the deviation-bounded update on `regPoolBad`
fails with `TwapDeviationTooLarge`. -/
theorem c9_witness :
    (({ regPool with
          token_usd_price_8d := 100
          prices_updated_at := 100
          twap_last_timestamp := 100
          twap_last_price := 100 } : TokenRegistry).token_usd_price_8d =
        emaPrice regPool 1 1 100 ∧
      ({ regPool with
          token_usd_price_8d := 100
          prices_updated_at := 100
          twap_last_timestamp := 100
          twap_last_price := 100 } : TokenRegistry).prices_updated_at =
        100 ∧
      ({ regPool with
          token_usd_price_8d := 100
          prices_updated_at := 100
          twap_last_timestamp := 100
          twap_last_price := 100 } : TokenRegistry).twap_last_timestamp =
        100 ∧
      ({ regPool with
          token_usd_price_8d := 100
          prices_updated_at := 100
          twap_last_timestamp := 100
          twap_last_price := 100 } : TokenRegistry).twap_last_price =
        poolSpot regPool.decimals 1 1) ∧
    update_token_price_from_pool regPoolBad true 1 1 100 =
      .error .TwapDeviationTooLarge :=
  ⟨c9_pool_ema_smoothing.1 regPool true 1 1 100
      ({ regPool with
          token_usd_price_8d := 100
          prices_updated_at := 100
          twap_last_timestamp := 100
          twap_last_price := 100 })
      (by decide) (by decide) (by decide) (by rfl),
    c9_pool_ema_smoothing.2.1 regPoolBad true 1 1 100 (by decide) (by decide)
      (by decide) (by decide) (by decide) (by decide) (by decide) (by decide)
      (by decide) (by decide) (by decide) (by decide) (by decide) (by decide)
      (by decide) (by decide) (by decide) (by decide)⟩


/-! ### Success-elimination lemmas for the desk-configuration operations -/

lemma transfer_owner_deskOnly {s : OtcState} {caller new_owner : Nat}
    {s' : OtcState} (h : transfer_owner s caller new_owner = .ok s') :
    DeskOnly s s' := by
  unfold transfer_owner at h
  split at h
  · cases h
  split at h
  · cases h
  rw [← Except.ok.inj h]
  exact ⟨rfl, rfl, fun hp => hp, le_refl _⟩

lemma set_prices_deskOnly {s : OtcState} {caller t sol : Nat} {ma now : Int}
    {s' : OtcState} (h : set_prices s caller t sol ma now = .ok s') :
    DeskOnly s s' := by
  unfold set_prices at h
  split at h
  · cases h
  split at h
  · cases h
  split at h
  · cases h
  split at h
  · cases h
  rw [← Except.ok.inj h]
  exact ⟨rfl, rfl, fun hp => hp, le_refl _⟩

lemma set_limits_deskOnly {s : OtcState} {caller : Nat} {m mt : Nat}
    {q d ml : Int} {s' : OtcState}
    (h : set_limits s caller m mt q d ml = .ok s') : DeskOnly s s' := by
  unfold set_limits at h
  split at h
  · cases h
  split at h
  · cases h
  split at h
  · cases h
  split at h
  · cases h
  split at h
  · cases h
  split at h
  · cases h
  rename_i hm _ _ _ _
  rw [← Except.ok.inj h]
  exact ⟨rfl, rfl, fun _ => by push_neg at hm; exact hm, le_refl _⟩

lemma set_agent_deskOnly {s : OtcState} {caller a : Nat} {s' : OtcState}
    (h : set_agent s caller a = .ok s') : DeskOnly s s' := by
  unfold set_agent at h
  split at h
  · cases h
  split at h
  · cases h
  rw [← Except.ok.inj h]
  exact ⟨rfl, rfl, fun hp => hp, le_refl _⟩

lemma set_restrict_fulfill_deskOnly {s : OtcState} {caller : Nat} {e : Bool}
    {s' : OtcState} (h : set_restrict_fulfill s caller e = .ok s') :
    DeskOnly s s' := by
  unfold set_restrict_fulfill at h
  split at h
  · cases h
  rw [← Except.ok.inj h]
  exact ⟨rfl, rfl, fun hp => hp, le_refl _⟩

lemma pauseDesk_deskOnly {s : OtcState} {caller : Nat} {s' : OtcState}
    (h : pauseDesk s caller = .ok s') : DeskOnly s s' := by
  unfold pauseDesk at h
  split at h
  · cases h
  rw [← Except.ok.inj h]
  exact ⟨rfl, rfl, fun hp => hp, le_refl _⟩

lemma unpauseDesk_deskOnly {s : OtcState} {caller : Nat} {s' : OtcState}
    (h : unpauseDesk s caller = .ok s') : DeskOnly s s' := by
  unfold unpauseDesk at h
  split at h
  · cases h
  rw [← Except.ok.inj h]
  exact ⟨rfl, rfl, fun hp => hp, le_refl _⟩

lemma set_approver_deskOnly {s : OtcState} {caller who : Nat}
    {allowed : Bool} {s' : OtcState}
    (h : set_approver s caller who allowed = .ok s') : DeskOnly s s' := by
  unfold set_approver at h
  split at h
  · cases h
  split at h
  · split at h
    · rw [← Except.ok.inj h]
      exact ⟨rfl, rfl, fun hp => hp, le_refl _⟩
    · split at h
      · rw [← Except.ok.inj h]
        exact ⟨rfl, rfl, fun hp => hp, le_refl _⟩
      · cases h
  · rw [← Except.ok.inj h]
    exact ⟨rfl, rfl, fun hp => hp, le_refl _⟩

lemma set_emergency_refund_deskOnly {s : OtcState} {caller : Nat} {e : Bool}
    {d : Int} {s' : OtcState}
    (h : set_emergency_refund s caller e d = .ok s') : DeskOnly s s' := by
  unfold set_emergency_refund at h
  split at h
  · cases h
  rw [← Except.ok.inj h]
  exact ⟨rfl, rfl, fun hp => hp, le_refl _⟩

lemma set_p2p_commission_deskOnly {s : OtcState} {caller bps : Nat}
    {s' : OtcState} (h : set_p2p_commission s caller bps = .ok s') :
    DeskOnly s s' := by
  unfold set_p2p_commission at h
  split at h
  · cases h
  split at h
  · cases h
  rw [← Except.ok.inj h]
  exact ⟨rfl, rfl, fun hp => hp, le_refl _⟩


/-! ### Success-elimination lemmas for consignment and offer operations -/

lemma checkedAddU64_ok {a b c : Nat} (h : checkedAddU64 a b = .ok c) :
    c = a + b ∧ a + b ≤ U64MAX := by
  unfold checkedAddU64 at h
  split at h
  · exact ⟨(Except.ok.inj h).symm, by assumption⟩
  · cases h

lemma checkedAddI64_ok {a b c : Int} (h : checkedAddI64 a b = .ok c) :
    c = a + b ∧ I64MIN ≤ a + b ∧ a + b ≤ I64MAX := by
  unfold checkedAddI64 at h
  split at h
  · rename_i hb
    exact ⟨(Except.ok.inj h).symm, hb.1, hb.2⟩
  · cases h

lemma create_consignment_ok_elim {s : OtcState}
    {cg tm a : Nat} {neg : Bool} {fd fl mind maxd minl maxl mina maxa : Nat}
    {fr pr : Bool} {vol : Nat} {exec now : Int} {s' : OtcState}
    (h : create_consignment s cg tm a neg fd fl mind maxd minl maxl mina maxa
      fr pr vol exec now = .ok s') :
    s.desk.paused = false ∧ 0 < a ∧
    s' = { s with
      desk := { s.desk with
        next_consignment_id := s.desk.next_consignment_id + 1 }
      consignments := s.consignments ++
        [{ id := s.desk.next_consignment_id
           token_mint := tm
           consigner := cg
           total_amount := a
           remaining_amount := a
           is_negotiable := neg
           fixed_discount_bps := fd
           fixed_lockup_days := fl
           min_discount_bps := mind
           max_discount_bps := maxd
           min_lockup_days := minl
           max_lockup_days := maxl
           min_deal_amount := mina
           max_deal_amount := maxa
           is_fractionalized := fr
           is_private := pr
           max_price_volatility_bps := vol
           max_time_to_execute_secs := exec
           is_active := true
           created_at := now }] } := by
  unfold create_consignment at h
  split at h
  · cases h
  rename_i hp
  split at h
  · cases h
  rename_i ha
  split at h
  · cases h
  split at h
  · cases h
  split at h
  · cases h
  split at h
  · cases h
  split at h
  · cases h
  split at h
  · cases h
  · rename_i next hnext
    obtain ⟨rfl, -⟩ := checkedAddU64_ok hnext
    refine ⟨by simpa using hp, by omega, (Except.ok.inj h).symm⟩

lemma withdraw_consignment_ok_elim {s : OtcState} {cg ci : Nat}
    {s' : OtcState} (h : withdraw_consignment s cg ci = .ok s') :
    ∃ c, s.consignments[ci]? = some c ∧ c.consigner = cg ∧
      c.is_active = true ∧ 0 < c.remaining_amount ∧
      s' = { s with consignments := (s.consignments.set ci
        { c with is_active := false, remaining_amount := 0 }) } := by
  unfold withdraw_consignment at h
  split at h
  · cases h
  rename_i c hc
  split at h
  · cases h
  rename_i h1
  split at h
  · cases h
  rename_i h2
  split at h
  · cases h
  rename_i h3
  refine ⟨c, hc, by omega, by simpa using h2, by omega,
    (Except.ok.inj h).symm⟩

lemma approve_offer_ok_elim {s : OtcState} {ap oi ci : Nat} {s' : OtcState}
    (h : approve_offer s ap oi ci = .ok s') :
    ∃ o c, s.offers[oi]? = some o ∧ s.consignments[ci]? = some c ∧
      c.id = o.consignment_id ∧ s.desk.paused = false ∧
      o.cancelled = false ∧ o.paid = false ∧ o.approved = false ∧
      c.is_negotiable = true ∧
      s' = { s with offers := (s.offers.set oi
        { o with approved := true }) } := by
  unfold approve_offer at h
  split at h
  · cases h
  rename_i o ho
  split at h
  · cases h
  rename_i c hc
  split at h
  · cases h
  rename_i h1
  split at h
  · cases h
  rename_i h2
  split at h
  · cases h
  rename_i h3
  split at h
  · cases h
  rename_i h4
  split at h
  · cases h
  rename_i h5
  split at h
  · cases h
  rename_i h6
  refine ⟨o, c, ho, hc, by omega, by simpa using h2, ?_, ?_, ?_, ?_,
    (Except.ok.inj h).symm⟩
  · simpa using (not_not.mp h4).1
  · simpa using (not_not.mp h4).2
  · simpa using h5
  · simpa using h6


lemma cancel_offer_ok_elim {s : OtcState} {caller oi : Nat} {now : Int}
    {s' : OtcState} (h : cancel_offer s caller oi now = .ok s') :
    ∃ o, s.offers[oi]? = some o ∧ s.desk.paused = false ∧
      o.paid = false ∧ o.fulfilled = false ∧
      s' = { s with offers := (s.offers.set oi
        { o with cancelled := true }) } := by
  unfold cancel_offer at h
  split at h
  · cases h
  rename_i o ho
  split at h
  · cases h
  rename_i h1
  split at h
  · cases h
  rename_i h2
  split at h
  · cases h
  refine ⟨o, ho, by simpa using h1, ?_, ?_, (Except.ok.inj h).symm⟩
  · simpa using (not_not.mp h2).1
  · simpa using (not_not.mp h2).2

lemma cancel_offer_with_consignment_ok_elim {s : OtcState}
    {caller oi ci : Nat} {now : Int} {s' : OtcState}
    (h : cancel_offer_with_consignment s caller oi ci now = .ok s') :
    ∃ o c, s.offers[oi]? = some o ∧ s.consignments[ci]? = some c ∧
      c.id = o.consignment_id ∧ s.desk.paused = false ∧
      o.paid = false ∧ o.fulfilled = false ∧ o.cancelled = false ∧
      0 < o.consignment_id ∧
      c.remaining_amount + o.token_amount ≤ U64MAX ∧
      s' = { s with
        offers := (s.offers.set oi { o with cancelled := true })
        consignments := (s.consignments.set ci
          { c with
              remaining_amount := c.remaining_amount + o.token_amount
              is_active := true }) } := by
  unfold cancel_offer_with_consignment at h
  split at h
  · cases h
  rename_i o ho
  split at h
  · cases h
  rename_i c hc
  split at h
  · cases h
  rename_i h1
  split at h
  · cases h
  rename_i h2
  split at h
  · cases h
  rename_i h3
  split at h
  · cases h
  rename_i h4
  split at h
  · cases h
  split at h
  · cases h
  rename_i restored hrest
  obtain ⟨rfl, hle⟩ := checkedAddU64_ok hrest
  refine ⟨o, c, ho, hc, by omega, by simpa using h2, ?_, ?_, ?_, by omega,
    hle, (Except.ok.inj h).symm⟩
  · simpa using (not_not.mp h3).1
  · simpa using (not_not.mp h3).2.1
  · simpa using (not_not.mp h3).2.2

lemma claimOffer_ok_elim {s : OtcState} {b oi : Nat} {now : Int}
    {s' : OtcState} (h : claimOffer s b oi now = .ok s') :
    ∃ o, s.offers[oi]? = some o ∧ s.desk.paused = false ∧
      b = o.beneficiary ∧ o.paid = true ∧ o.cancelled = false ∧
      o.fulfilled = false ∧ now ≥ o.unlock_time ∧
      s' = { s with offers := (s.offers.set oi
        { o with fulfilled := true }) } := by
  unfold claimOffer at h
  split at h
  · cases h
  rename_i o ho
  split at h
  · cases h
  rename_i h1
  split at h
  · cases h
  rename_i h2
  split at h
  · cases h
  rename_i h3
  split at h
  · cases h
  rename_i h4
  refine ⟨o, ho, by simpa using h1, by omega, ?_, ?_, ?_, by omega,
    (Except.ok.inj h).symm⟩
  · exact (not_not.mp h3).1
  · simpa using (not_not.mp h3).2.1
  · simpa using (not_not.mp h3).2.2

lemma emergency_refund_sol_ok_elim {s : OtcState} {caller oi : Nat}
    {now : Int} {s' : OtcState}
    (h : emergency_refund_sol s caller oi now = .ok s') :
    ∃ o, s.offers[oi]? = some o ∧
      s.desk.emergency_refund_enabled = true ∧
      o.paid = true ∧ o.fulfilled = false ∧ o.cancelled = false ∧
      o.currency = 0 ∧
      (now ≥ o.created_at + s.desk.emergency_refund_deadline_secs ∨
        now ≥ o.unlock_time + 30 * 86400) ∧
      (caller = o.payer ∨ caller = o.beneficiary ∨ caller = s.desk.owner ∨
        caller = s.desk.agent ∨ caller ∈ s.desk.approvers) ∧
      s' = { s with offers := (s.offers.set oi
        { o with cancelled := true }) } := by
  unfold emergency_refund_sol at h
  split at h
  · cases h
  rename_i o ho
  split at h
  · cases h
  rename_i h1
  split at h
  · cases h
  rename_i h2
  split at h
  · cases h
  rename_i h3
  split at h
  · cases h
  rename_i deadline hd
  split at h
  · cases h
  rename_i ud hu
  split at h
  · cases h
  rename_i h4
  split at h
  · cases h
  rename_i h5
  obtain ⟨rfl, -, -⟩ := checkedAddI64_ok hd
  obtain ⟨rfl, -, -⟩ := checkedAddI64_ok hu
  refine ⟨o, ho, by simpa using h1, ?_, ?_, ?_, by omega,
    not_not.mp h4, not_not.mp h5, (Except.ok.inj h).symm⟩
  · exact (not_not.mp h2).1
  · simpa using (not_not.mp h2).2.1
  · simpa using (not_not.mp h2).2.2

lemma emergency_refund_usdc_ok_elim {s : OtcState} {caller oi : Nat}
    {now : Int} {s' : OtcState}
    (h : emergency_refund_usdc s caller oi now = .ok s') :
    ∃ o, s.offers[oi]? = some o ∧
      s.desk.emergency_refund_enabled = true ∧
      o.paid = true ∧ o.fulfilled = false ∧ o.cancelled = false ∧
      o.currency = 1 ∧
      (now ≥ o.created_at + s.desk.emergency_refund_deadline_secs ∨
        now ≥ o.unlock_time + 30 * 86400) ∧
      (caller = o.payer ∨ caller = o.beneficiary ∨ caller = s.desk.owner ∨
        caller = s.desk.agent ∨ caller ∈ s.desk.approvers) ∧
      s' = { s with offers := (s.offers.set oi
        { o with cancelled := true }) } := by
  unfold emergency_refund_usdc at h
  split at h
  · cases h
  rename_i o ho
  split at h
  · cases h
  rename_i h1
  split at h
  · cases h
  rename_i h2
  split at h
  · cases h
  rename_i h3
  split at h
  · cases h
  rename_i deadline hd
  split at h
  · cases h
  rename_i ud hu
  split at h
  · cases h
  rename_i h4
  split at h
  · cases h
  rename_i h5
  obtain ⟨rfl, -, -⟩ := checkedAddI64_ok hd
  obtain ⟨rfl, -, -⟩ := checkedAddI64_ok hu
  refine ⟨o, ho, by simpa using h1, ?_, ?_, ?_, by omega,
    not_not.mp h4, not_not.mp h5, (Except.ok.inj h).symm⟩
  · exact (not_not.mp h2).1
  · simpa using (not_not.mp h2).2.1
  · simpa using (not_not.mp h2).2.2


lemma create_offer_ok_elim {s : OtcState} {b : Nat} {reg : TokenRegistry}
    {ta d cur : Nat} {lockup now : Int} {s' : OtcState}
    (h : create_offer s b reg ta d cur lockup now = .ok s') :
    ∃ usd, s.desk.paused = false ∧
      calc_discounted_usd ta reg.token_usd_price_8d reg.decimals d =
        .ok usd ∧
      s.desk.min_usd_amount_8d ≤ usd ∧
      s' = { s with
        desk := { s.desk with next_offer_id := s.desk.next_offer_id + 1 }
        offers := s.offers ++
          [{ consignment_id := 0
             token_mint := reg.token_mint
             token_decimals := reg.decimals
             id := s.desk.next_offer_id
             beneficiary := b
             token_amount := ta
             discount_bps := d
             created_at := now
             unlock_time := now + lockup
             price_usd_per_token_8d := reg.token_usd_price_8d
             max_price_deviation_bps := 0
             sol_usd_price_8d :=
               if cur = 0 then s.desk.sol_usd_price_8d else 0
             currency := cur
             approved := false
             paid := false
             fulfilled := false
             cancelled := false
             payer := 0
             amount_paid := 0
             agent_commission_bps := 0 }] } := by
  unfold create_offer at h
  by_cases g1 : s.desk.paused = true
  · rw [if_pos g1] at h
    cases h
  rw [if_neg g1] at h
  by_cases g2 : ¬ (reg.is_active = true)
  · rw [if_pos g2] at h
    cases h
  rw [if_neg g2] at h
  by_cases g3 : ¬ (cur = 0 ∨ cur = 1)
  · rw [if_pos g3] at h
    cases h
  rw [if_neg g3] at h
  by_cases g4 : ¬ (ta > 0)
  · rw [if_pos g4] at h
    cases h
  rw [if_neg g4] at h
  by_cases g5 : ¬ (d ≤ 10000)
  · rw [if_pos g5] at h
    cases h
  rw [if_neg g5] at h
  by_cases g6 : ¬ (reg.token_usd_price_8d > 0)
  · rw [if_pos g6] at h
    cases h
  rw [if_neg g6] at h
  by_cases g7 : reg.prices_updated_at > 0 ∧
      ¬ (now - reg.prices_updated_at ≤ s.desk.max_price_age_secs)
  · rw [if_pos g7] at h
    cases h
  rw [if_neg g7] at h
  cases hcalc : calc_discounted_usd ta reg.token_usd_price_8d reg.decimals d
    with
  | error e =>
    simp only [hcalc] at h
    cases h
  | ok usd =>
    simp only [hcalc] at h
    by_cases g8 : ¬ (usd ≥ s.desk.min_usd_amount_8d)
    · rw [if_pos g8] at h
      cases h
    rw [if_neg g8] at h
    by_cases g9 : ¬ (lockup ≥ s.desk.default_unlock_delay_secs ∧
        lockup ≤ s.desk.max_lockup_secs)
    · rw [if_pos g9] at h
      cases h
    rw [if_neg g9] at h
    cases hnext : checkedAddU64 s.desk.next_offer_id 1 with
    | error e =>
      simp only [hnext] at h
      cases h
    | ok next =>
      simp only [hnext] at h
      cases hunlock : checkedAddI64 now lockup with
      | error e =>
        simp only [hunlock] at h
        cases h
      | ok unlock =>
        simp only [hunlock] at h
        obtain ⟨rfl, -⟩ := checkedAddU64_ok hnext
        obtain ⟨rfl, -, -⟩ := checkedAddI64_ok hunlock
        exact ⟨usd, by simpa using g1, rfl, by omega,
          (Except.ok.inj h).symm⟩

lemma create_offer_from_consignment_ok_elim {s : OtcState} {b ci : Nat}
    {reg : TokenRegistry} {cid ta d cur : Nat} {lockup : Int} {acb : Nat}
    {now : Int} {s' : OtcState}
    (h : create_offer_from_consignment s b ci reg cid ta d cur lockup acb now
      = .ok s') :
    ∃ c comm usd, s.consignments[ci]? = some c ∧ s.desk.paused = false ∧
      calc_discounted_usd ta reg.token_usd_price_8d reg.decimals d =
        .ok usd ∧
      s.desk.min_usd_amount_8d ≤ usd ∧ ta ≤ c.remaining_amount ∧
      s' = { s with
        desk := { s.desk with next_offer_id := s.desk.next_offer_id + 1 }
        consignments := (s.consignments.set ci
          { c with
              remaining_amount := c.remaining_amount - ta
              is_active :=
                if c.remaining_amount - ta = 0 then false
                else c.is_active })
        offers := s.offers ++
          [{ consignment_id := cid
             token_mint := c.token_mint
             token_decimals := reg.decimals
             id := s.desk.next_offer_id
             beneficiary := b
             token_amount := ta
             discount_bps := d
             created_at := now
             unlock_time := now + lockup
             price_usd_per_token_8d := reg.token_usd_price_8d
             max_price_deviation_bps := c.max_price_volatility_bps
             sol_usd_price_8d :=
               if cur = 0 then s.desk.sol_usd_price_8d else 0
             currency := cur
             approved := ¬ c.is_negotiable
             paid := false
             fulfilled := false
             cancelled := false
             payer := 0
             amount_paid := 0
             agent_commission_bps := comm }] } := by
  unfold create_offer_from_consignment at h
  cases hc : s.consignments[ci]? with
  | none =>
    simp only [hc] at h
    cases h
  | some c =>
  simp only [hc] at h
  by_cases g1 : s.desk.paused = true
  · rw [if_pos g1] at h
    cases h
  rw [if_neg g1] at h
  by_cases g2 : ¬ (cur = 0 ∨ cur = 1)
  · rw [if_pos g2] at h
    cases h
  rw [if_neg g2] at h
  by_cases g3 : ¬ (c.is_active = true)
  · rw [if_pos g3] at h
    cases h
  rw [if_neg g3] at h
  by_cases g4 : c.is_private ∧ ¬ (b = c.consigner ∨ b = s.desk.owner ∨
      b = s.desk.agent ∨ b ∈ s.desk.approvers)
  · rw [if_pos g4] at h
    cases h
  rw [if_neg g4] at h
  by_cases g5 : ¬ (ta ≥ c.min_deal_amount ∧ ta ≤ c.max_deal_amount)
  · rw [if_pos g5] at h
    cases h
  rw [if_neg g5] at h
  by_cases g6 : ¬ (ta ≤ c.remaining_amount)
  · rw [if_pos g6] at h
    cases h
  rw [if_neg g6] at h
  cases hcomm : (if c.is_negotiable then
      if ¬ (d ≥ c.min_discount_bps ∧ d ≤ c.max_discount_bps) then
        Except.error OtcError.Discount
      else if ¬ (Int.tdiv lockup 86400 ≥ (c.min_lockup_days : Int) ∧
          Int.tdiv lockup 86400 ≤ (c.max_lockup_days : Int)) then
        Except.error OtcError.LockupTooLong
      else if ¬ (acb ≥ 25 ∧ acb ≤ 150) then
        Except.error OtcError.CommissionRange
      else Except.ok acb
    else
      if ¬ (d = c.fixed_discount_bps) then Except.error OtcError.Discount
      else if ¬ (Int.tdiv lockup 86400 = (c.fixed_lockup_days : Int)) then
        Except.error OtcError.LockupTooLong
      else Except.ok s.desk.p2p_commission_bps : Except OtcError Nat) with
  | error e =>
    simp only [hcomm] at h
    cases h
  | ok comm =>
  simp only [hcomm] at h
  by_cases g7 : ¬ (reg.token_mint = c.token_mint)
  · rw [if_pos g7] at h
    cases h
  rw [if_neg g7] at h
  by_cases g8 : ¬ (reg.token_usd_price_8d > 0)
  · rw [if_pos g8] at h
    cases h
  rw [if_neg g8] at h
  by_cases g9 : reg.prices_updated_at > 0 ∧
      ¬ (now - reg.prices_updated_at ≤ s.desk.max_price_age_secs)
  · rw [if_pos g9] at h
    cases h
  rw [if_neg g9] at h
  cases hcalc : calc_discounted_usd ta reg.token_usd_price_8d reg.decimals d
    with
  | error e =>
    simp only [hcalc] at h
    cases h
  | ok usd =>
  simp only [hcalc] at h
  by_cases g10 : ¬ (usd ≥ s.desk.min_usd_amount_8d)
  · rw [if_pos g10] at h
    cases h
  rw [if_neg g10] at h
  cases hnext : checkedAddU64 s.desk.next_offer_id 1 with
  | error e =>
    simp only [hnext] at h
    cases h
  | ok next =>
  simp only [hnext] at h
  cases hunlock : checkedAddI64 now lockup with
  | error e =>
    simp only [hunlock] at h
    cases h
  | ok unlock =>
  simp only [hunlock] at h
  obtain ⟨rfl, -⟩ := checkedAddU64_ok hnext
  obtain ⟨rfl, -, -⟩ := checkedAddI64_ok hunlock
  exact ⟨c, comm, usd, rfl, by simpa using g1, rfl, by omega, by omega,
    (Except.ok.inj h).symm⟩


lemma safe_u128_to_u64_ok {v u : Nat} (h : safe_u128_to_u64 v = .ok u) :
    u = v ∧ v ≤ U64MAX := by
  unfold safe_u128_to_u64 at h
  split at h
  · exact ⟨(Except.ok.inj h).symm, by assumption⟩
  · cases h

lemma fulfill_offer_usdc_ok_elim {s : OtcState} {payer oi t : Nat}
    {ata : Option Nat} {now : Int} {s' : OtcState}
    (h : fulfill_offer_usdc s payer oi t ata now = .ok s') :
    ∃ o usd amt, s.offers[oi]? = some o ∧ s.desk.paused = false ∧
      o.currency = 1 ∧ o.approved = true ∧ o.cancelled = false ∧
      o.paid = false ∧ o.fulfilled = false ∧
      calc_discounted_usd o.token_amount o.price_usd_per_token_8d
        o.token_decimals o.discount_bps = .ok usd ∧
      mul_div_ceil_u128 usd 1000000 100000000 = .ok amt ∧ amt ≤ U64MAX ∧
      s' = { s with offers := (s.offers.set oi
        { o with amount_paid := amt, payer := payer, paid := true }) } := by
  unfold fulfill_offer_usdc at h
  cases ho : s.offers[oi]? with
  | none =>
    simp only [ho] at h
    cases h
  | some o =>
  simp only [ho] at h
  by_cases g1 : s.desk.paused = true
  · rw [if_pos g1] at h
    cases h
  rw [if_neg g1] at h
  by_cases g2 : ¬ (o.currency = 1)
  · rw [if_pos g2] at h
    cases h
  rw [if_neg g2] at h
  by_cases g3 : ¬ (o.approved = true)
  · rw [if_pos g3] at h
    cases h
  rw [if_neg g3] at h
  by_cases g4 : ¬ (¬ o.cancelled ∧ ¬ o.paid ∧ ¬ o.fulfilled)
  · rw [if_pos g4] at h
    cases h
  rw [if_neg g4] at h
  cases hexp : checkedAddI64 o.created_at s.desk.quote_expiry_secs with
  | error e =>
    simp only [hexp] at h
    cases h
  | ok expiry =>
  simp only [hexp] at h
  by_cases g5 : ¬ (now ≤ expiry)
  · rw [if_pos g5] at h
    cases h
  rw [if_neg g5] at h
  by_cases g6 : ¬ (t ≥ o.token_amount)
  · rw [if_pos g6] at h
    cases h
  rw [if_neg g6] at h
  by_cases g7 : s.desk.restrict_fulfill ∧ ¬ (payer = o.beneficiary ∨
      payer = s.desk.owner ∨ payer = s.desk.agent ∨
      payer ∈ s.desk.approvers)
  · rw [if_pos g7] at h
    cases h
  rw [if_neg g7] at h
  cases hcalc : calc_discounted_usd o.token_amount o.price_usd_per_token_8d
      o.token_decimals o.discount_bps with
  | error e =>
    simp only [hcalc] at h
    cases h
  | ok usd =>
  simp only [hcalc] at h
  cases hceil : mul_div_ceil_u128 usd 1000000 100000000 with
  | error e =>
    simp only [hceil] at h
    cases h
  | ok amt128 =>
  simp only [hceil] at h
  cases hsafe : safe_u128_to_u64 amt128 with
  | error e =>
    simp only [hsafe] at h
    cases h
  | ok amt =>
  simp only [hsafe] at h
  by_cases g8 : ¬ (usd * o.agent_commission_bps ≤ U64MAX)
  · rw [if_pos g8] at h
    cases h
  rw [if_neg g8] at h
  cases hcm : mul_div_u128 (usd * o.agent_commission_bps / 10000) 1000000
      100000000 with
  | error e =>
    simp only [hcm] at h
    cases h
  | ok cm128 =>
  simp only [hcm] at h
  cases hcs : safe_u128_to_u64 cm128 with
  | error e =>
    simp only [hcs] at h
    cases h
  | ok commission =>
  simp only [hcs] at h
  cases hdest : commissionDestOk commission ata s.desk.agent with
  | error e =>
    simp only [hdest] at h
    cases h
  | ok u =>
  simp only [hdest] at h
  obtain ⟨rfl, hbound⟩ := safe_u128_to_u64_ok hsafe
  refine ⟨o, usd, amt, rfl, by simpa using g1, by omega, ?_, ?_, ?_, ?_,
    hcalc, hceil, hbound, (Except.ok.inj h).symm⟩
  · simpa using g3
  · simpa using (not_not.mp g4).1
  · simpa using (not_not.mp g4).2.1
  · simpa using (not_not.mp g4).2.2

lemma fulfill_offer_sol_ok_elim {s : OtcState} {payer oi t : Nat}
    {ag : Option Nat} {now : Int} {s' : OtcState}
    (h : fulfill_offer_sol s payer oi t ag now = .ok s') :
    ∃ o usd amt, s.offers[oi]? = some o ∧ s.desk.paused = false ∧
      o.currency = 0 ∧ o.approved = true ∧ o.cancelled = false ∧
      o.paid = false ∧ o.fulfilled = false ∧
      calc_discounted_usd o.token_amount o.price_usd_per_token_8d
        o.token_decimals o.discount_bps = .ok usd ∧
      0 < (if o.sol_usd_price_8d > 0 then o.sol_usd_price_8d
        else s.desk.sol_usd_price_8d) ∧
      mul_div_ceil_u128 usd 1000000000
        (if o.sol_usd_price_8d > 0 then o.sol_usd_price_8d
          else s.desk.sol_usd_price_8d) = .ok amt ∧ amt ≤ U64MAX ∧
      s' = { s with offers := (s.offers.set oi
        { o with amount_paid := amt, payer := payer, paid := true }) } := by
  simp only [fulfill_offer_sol] at h
  cases ho : s.offers[oi]? with
  | none =>
    simp only [ho] at h
    cases h
  | some o =>
  simp only [ho] at h
  by_cases g1 : s.desk.paused = true
  · rw [if_pos g1] at h
    cases h
  rw [if_neg g1] at h
  by_cases g2 : ¬ (o.currency = 0)
  · rw [if_pos g2] at h
    cases h
  rw [if_neg g2] at h
  by_cases g3 : ¬ (o.approved = true)
  · rw [if_pos g3] at h
    cases h
  rw [if_neg g3] at h
  by_cases g4 : ¬ (¬ o.cancelled ∧ ¬ o.paid ∧ ¬ o.fulfilled)
  · rw [if_pos g4] at h
    cases h
  rw [if_neg g4] at h
  cases hexp : checkedAddI64 o.created_at s.desk.quote_expiry_secs with
  | error e =>
    simp only [hexp] at h
    cases h
  | ok expiry =>
  simp only [hexp] at h
  by_cases g5 : ¬ (now ≤ expiry)
  · rw [if_pos g5] at h
    cases h
  rw [if_neg g5] at h
  by_cases g6 : ¬ (t ≥ o.token_amount)
  · rw [if_pos g6] at h
    cases h
  rw [if_neg g6] at h
  by_cases g7 : s.desk.restrict_fulfill ∧ ¬ (payer = o.beneficiary ∨
      payer = s.desk.owner ∨ payer = s.desk.agent ∨
      payer ∈ s.desk.approvers)
  · rw [if_pos g7] at h
    cases h
  rw [if_neg g7] at h
  cases hcalc : calc_discounted_usd o.token_amount o.price_usd_per_token_8d
      o.token_decimals o.discount_bps with
  | error e =>
    simp only [hcalc] at h
    cases h
  | ok usd =>
  simp only [hcalc] at h
  by_cases g8 : ¬ ((if o.sol_usd_price_8d > 0 then o.sol_usd_price_8d
      else s.desk.sol_usd_price_8d) > 0)
  · rw [if_pos g8] at h
    cases h
  rw [if_neg g8] at h
  cases hceil : mul_div_ceil_u128 usd 1000000000
      (if o.sol_usd_price_8d > 0 then o.sol_usd_price_8d
        else s.desk.sol_usd_price_8d) with
  | error e =>
    simp only [hceil] at h
    cases h
  | ok amt128 =>
  simp only [hceil] at h
  cases hsafe : safe_u128_to_u64 amt128 with
  | error e =>
    simp only [hsafe] at h
    cases h
  | ok amt =>
  simp only [hsafe] at h
  by_cases g9 : ¬ (usd * o.agent_commission_bps ≤ U64MAX)
  · rw [if_pos g9] at h
    cases h
  rw [if_neg g9] at h
  cases hcm : mul_div_u128 (usd * o.agent_commission_bps / 10000) 1000000000
      (if o.sol_usd_price_8d > 0 then o.sol_usd_price_8d
        else s.desk.sol_usd_price_8d) with
  | error e =>
    simp only [hcm] at h
    cases h
  | ok cm128 =>
  simp only [hcm] at h
  cases hcs : safe_u128_to_u64 cm128 with
  | error e =>
    simp only [hcs] at h
    cases h
  | ok commission =>
  simp only [hcs] at h
  cases hdest : commissionDestOk commission ag s.desk.agent with
  | error e =>
    simp only [hdest] at h
    cases h
  | ok u =>
  simp only [hdest] at h
  obtain ⟨rfl, hbound⟩ := safe_u128_to_u64_ok hsafe
  refine ⟨o, usd, amt, rfl, by simpa using g1, by omega, ?_, ?_, ?_, ?_,
    hcalc, by omega, hceil, hbound, (Except.ok.inj h).symm⟩
  · simpa using g3
  · simpa using (not_not.mp g4).1
  · simpa using (not_not.mp g4).2.1
  · simpa using (not_not.mp g4).2.2


/-! ### Preservation of the state invariant -/

lemma inv_of_deskOnly {s s' : OtcState} (hi : Inv s) (hd : DeskOnly s s') :
    Inv s' := by
  obtain ⟨hmin, hncid, hoff, hcons⟩ := hi
  obtain ⟨ho, hc, hm, hn⟩ := hd
  refine ⟨hm hmin, le_trans hncid hn, ?_, ?_⟩
  · intro o hmem
    exact hoff o (by rwa [ho] at hmem)
  · intro c hmem
    exact hcons c (by rwa [hc] at hmem)

lemma inv_offers_set {s : OtcState} {oi : Nat} {o' : Offer}
    (hi : Inv s) (hok : offerOk o') :
    Inv { s with offers := (s.offers.set oi o') } := by
  obtain ⟨hmin, hncid, hoff, hcons⟩ := hi
  refine ⟨hmin, hncid, ?_, hcons⟩
  intro x hx
  rcases List.mem_or_eq_of_mem_set hx with hx | rfl
  · exact hoff x hx
  · exact hok

lemma offerOk_of_mem {s : OtcState} {oi : Nat} {o : Offer} (hi : Inv s)
    (h : s.offers[oi]? = some o) : offerOk o :=
  hi.2.2.1 o (List.getElem?_mem h)

lemma offerOk_set_approved {o : Offer} (h : offerOk o) (b : Bool) :
    offerOk { o with approved := b } :=
  ⟨h.1, h.2.1, h.2.2.1, h.2.2.2⟩

lemma offerOk_set_cancelled {o : Offer} (h : offerOk o)
    (hf : o.fulfilled = false) : offerOk { o with cancelled := true } := by
  refine ⟨h.1, ?_, h.2.2.1, h.2.2.2⟩
  intro hx
  rw [show ({ o with cancelled := true } : Offer).fulfilled = o.fulfilled
    from rfl, hf] at hx
  cases hx

lemma offerOk_set_fulfilled {o : Offer} (h : offerOk o)
    (hp : o.paid = true) (hc : o.cancelled = false) :
    offerOk { o with fulfilled := true } :=
  ⟨fun _ => hp, fun _ => hc, h.2.2.1, h.2.2.2⟩

lemma offerOk_set_paid {o : Offer} (h : offerOk o) {payer amt : Nat}
    (hf : o.fulfilled = false) (hamt : 0 < amt) (hpayer : payer ≠ 0) :
    offerOk { o with amount_paid := amt, payer := payer, paid := true } := by
  exact ⟨fun hx => absurd hx (by simp [hf]),
    fun hx => absurd hx (by simp [hf]),
    fun _ => ⟨hamt, hpayer⟩, h.2.2.2⟩

lemma inv_step {s s' : OtcState} {op : Op} (hi : Inv s) (hsig : sigOk op)
    (h : applyOp op s = .ok s') : Inv s' := by
  obtain ⟨hmin, hncid, hoff, hcons⟩ := hi
  cases op with
  | transferOwner caller x =>
    exact inv_of_deskOnly ⟨hmin, hncid, hoff, hcons⟩ (transfer_owner_deskOnly h)
  | setPrices caller t sol ma now =>
    exact inv_of_deskOnly ⟨hmin, hncid, hoff, hcons⟩ (set_prices_deskOnly h)
  | setLimits caller m mt q d ml =>
    exact inv_of_deskOnly ⟨hmin, hncid, hoff, hcons⟩ (set_limits_deskOnly h)
  | setAgent caller a =>
    exact inv_of_deskOnly ⟨hmin, hncid, hoff, hcons⟩ (set_agent_deskOnly h)
  | setRestrictFulfill caller e =>
    exact inv_of_deskOnly ⟨hmin, hncid, hoff, hcons⟩
      (set_restrict_fulfill_deskOnly h)
  | pause caller =>
    exact inv_of_deskOnly ⟨hmin, hncid, hoff, hcons⟩ (pauseDesk_deskOnly h)
  | unpause caller =>
    exact inv_of_deskOnly ⟨hmin, hncid, hoff, hcons⟩ (unpauseDesk_deskOnly h)
  | setApprover caller who allowed =>
    exact inv_of_deskOnly ⟨hmin, hncid, hoff, hcons⟩ (set_approver_deskOnly h)
  | setEmergencyRefund caller e d =>
    exact inv_of_deskOnly ⟨hmin, hncid, hoff, hcons⟩
      (set_emergency_refund_deskOnly h)
  | setP2pCommission caller bps =>
    exact inv_of_deskOnly ⟨hmin, hncid, hoff, hcons⟩
      (set_p2p_commission_deskOnly h)
  | createConsignment cg tm a neg fd fl mind maxd minl maxl mina maxa fr pr
      vol exec now =>
    obtain ⟨-, -, rfl⟩ := create_consignment_ok_elim h
    refine ⟨hmin, Nat.le_succ_of_le hncid, hoff, ?_⟩
    intro c hmem
    rcases List.mem_append.mp hmem with hmem | hmem
    · exact hcons c hmem
    · rw [List.mem_singleton.mp hmem]
      exact hncid
  | createOffer b reg ta d cur lockup now =>
    obtain ⟨usd, -, hcalc, husd, rfl⟩ := create_offer_ok_elim h
    refine ⟨hmin, hncid, ?_, hcons⟩
    intro x hx
    rcases List.mem_append.mp hx with hx | hx
    · exact hoff x hx
    · rw [List.mem_singleton.mp hx]
      exact ⟨(fun hx => nomatch hx), (fun hx => nomatch hx),
        (fun hx => nomatch hx), usd, hcalc, by omega⟩
  | createOfferFromConsignment b ci reg cid ta d cur lockup acb now =>
    obtain ⟨c, comm, usd, hc, -, hcalc, husd, -, rfl⟩ :=
      create_offer_from_consignment_ok_elim h
    refine ⟨hmin, hncid, ?_, ?_⟩
    · intro x hx
      rcases List.mem_append.mp hx with hx | hx
      · exact hoff x hx
      · rw [List.mem_singleton.mp hx]
        exact ⟨(fun hx => nomatch hx), (fun hx => nomatch hx),
          (fun hx => nomatch hx), usd, hcalc, by omega⟩
    · intro x hx
      rcases List.mem_or_eq_of_mem_set hx with hx | rfl
      · exact hcons x hx
      · exact hcons c (List.getElem?_mem hc)
  | withdrawConsignment cg ci =>
    obtain ⟨c, hc, -, -, -, rfl⟩ := withdraw_consignment_ok_elim h
    refine ⟨hmin, hncid, hoff, ?_⟩
    intro x hx
    rcases List.mem_or_eq_of_mem_set hx with hx | rfl
    · exact hcons x hx
    · exact hcons c (List.getElem?_mem hc)
  | approveOffer ap oi ci =>
    obtain ⟨o, c, ho, -, -, -, -, -, -, -, rfl⟩ := approve_offer_ok_elim h
    exact inv_offers_set ⟨hmin, hncid, hoff, hcons⟩
      (offerOk_set_approved (offerOk_of_mem ⟨hmin, hncid, hoff, hcons⟩ ho)
        true)
  | cancelOffer caller oi now =>
    obtain ⟨o, ho, -, -, hf, rfl⟩ := cancel_offer_ok_elim h
    exact inv_offers_set ⟨hmin, hncid, hoff, hcons⟩
      (offerOk_set_cancelled (offerOk_of_mem ⟨hmin, hncid, hoff, hcons⟩ ho)
        hf)
  | cancelOfferWithConsignment caller oi ci now =>
    obtain ⟨o, c, ho, hcm, -, -, -, hf, -, -, -, rfl⟩ :=
      cancel_offer_with_consignment_ok_elim h
    refine ⟨hmin, hncid, ?_, ?_⟩
    · intro x hx
      rcases List.mem_or_eq_of_mem_set hx with hx | rfl
      · exact hoff x hx
      · exact offerOk_set_cancelled
          (offerOk_of_mem ⟨hmin, hncid, hoff, hcons⟩ ho) hf
    · intro x hx
      rcases List.mem_or_eq_of_mem_set hx with hx | rfl
      · exact hcons x hx
      · exact hcons c (List.getElem?_mem hcm)
  | fulfillOfferUsdc payer oi t ata now =>
    obtain ⟨o, usd, amt, ho, -, -, -, -, -, hf, hcalc, hceil, -, rfl⟩ :=
      fulfill_offer_usdc_ok_elim h
    have hok := offerOk_of_mem ⟨hmin, hncid, hoff, hcons⟩ ho
    obtain ⟨u, hu, hupos⟩ := hok.2.2.2
    have husd : usd = u := by
      rw [hcalc] at hu
      exact Except.ok.inj hu
    have hamt : 0 < amt :=
      mul_div_ceil_u128_pos hceil
        (by rw [husd]; exact Nat.mul_pos hupos (by norm_num))
    exact inv_offers_set ⟨hmin, hncid, hoff, hcons⟩
      (offerOk_set_paid hok hf hamt hsig)
  | fulfillOfferSol payer oi t ag now =>
    obtain ⟨o, usd, amt, ho, -, -, -, -, -, hf, hcalc, hsol, hceil, -, rfl⟩ :=
      fulfill_offer_sol_ok_elim h
    have hok := offerOk_of_mem ⟨hmin, hncid, hoff, hcons⟩ ho
    obtain ⟨u, hu, hupos⟩ := hok.2.2.2
    have husd : usd = u := by
      rw [hcalc] at hu
      exact Except.ok.inj hu
    have hamt : 0 < amt :=
      mul_div_ceil_u128_pos hceil
        (by rw [husd]; exact Nat.mul_pos hupos (by norm_num))
    exact inv_offers_set ⟨hmin, hncid, hoff, hcons⟩
      (offerOk_set_paid hok hf hamt hsig)
  | claim b oi now =>
    obtain ⟨o, ho, -, -, hp, hcan, -, -, rfl⟩ := claimOffer_ok_elim h
    exact inv_offers_set ⟨hmin, hncid, hoff, hcons⟩
      (offerOk_set_fulfilled (offerOk_of_mem ⟨hmin, hncid, hoff, hcons⟩ ho)
        hp hcan)
  | emergencyRefundSol caller oi now =>
    obtain ⟨o, ho, -, -, hf, -, -, -, -, rfl⟩ :=
      emergency_refund_sol_ok_elim h
    exact inv_offers_set ⟨hmin, hncid, hoff, hcons⟩
      (offerOk_set_cancelled (offerOk_of_mem ⟨hmin, hncid, hoff, hcons⟩ ho)
        hf)
  | emergencyRefundUsdc caller oi now =>
    obtain ⟨o, ho, -, -, hf, -, -, -, -, rfl⟩ :=
      emergency_refund_usdc_ok_elim h
    exact inv_offers_set ⟨hmin, hncid, hoff, hcons⟩
      (offerOk_set_cancelled (offerOk_of_mem ⟨hmin, hncid, hoff, hcons⟩ ho)
        hf)


lemma inv_init {owner agent um ud m : Nat} {q : Int} {s : OtcState}
    (h : init_desk owner agent um ud m q = .ok s) : Inv s := by
  unfold init_desk at h
  split at h
  · cases h
  split at h
  · cases h
  rename_i hm
  split at h
  · cases h
  split at h
  · cases h
  rw [← Except.ok.inj h]
  refine ⟨by simpa using not_not.mp hm, le_refl _, ?_, ?_⟩
  · intro o hmem
    cases hmem
  · intro c hmem
    cases hmem

/-- Every reachable state satisfies the state invariant. -/
lemma inv_of_reachable {s : OtcState} (h : Reachable s) : Inv s := by
  induction h with
  | init o a um ud m q s h => exact inv_init h
  | step s s' op hr hsig h ih => exact inv_step ih hsig h

/-- Reachability is closed under further successful steps. -/
lemma reachable_of_star {s s' : OtcState} (hr : Reachable s)
    (h : Relation.ReflTransGen StepRel s s') : Reachable s' := by
  induction h with
  | refl => exact hr
  | tail hab hbc ih =>
    obtain ⟨op, hsig, hok⟩ := hbc
    exact Reachable.step _ _ op ih hsig hok


/-! ### Reachability of the example executions -/

lemma reachable_exS0 : Reachable exS0 :=
  Reachable.init 1 2 9 6 1 60 exS0 (by rfl)

lemma reachable_exS1 : Reachable exS1 :=
  Reachable.step exS0 exS1 (.setPrices 1 100000000 100000000 3600 0)
    reachable_exS0 trivial (by rfl)

lemma reachable_exS2 : Reachable exS2 :=
  Reachable.step exS1 exS2
    (.createConsignment 3 7 10 false 0 0 0 0 0 0 0 10 false false 0 0 0)
    reachable_exS1 trivial (by rfl)

lemma reachable_exS3 : Reachable exS3 :=
  Reachable.step exS2 exS3
    (.createConsignment 3 7 5 false 0 0 0 0 0 0 0 10 false false 0 0 0)
    reachable_exS2 trivial (by rfl)

lemma reachable_exS4 : Reachable exS4 :=
  Reachable.step exS3 exS4
    (.createOfferFromConsignment 4 0 regR 2 10 0 0 0 0 0)
    reachable_exS3 trivial (by rfl)

lemma reachable_exS5 : Reachable exS5 :=
  Reachable.step exS4 exS5 (.fulfillOfferSol 5 0 10 none 0)
    reachable_exS4 (by intro hx; cases hx) (by rfl)

lemma reachable_exS6 : Reachable exS6 :=
  Reachable.step exS5 exS6 (.setEmergencyRefund 1 true 100)
    reachable_exS5 trivial (by rfl)

lemma reachable_exB5 : Reachable exB5 :=
  Reachable.step exS4 exB5 (.cancelOfferWithConsignment 1 0 1 0)
    reachable_exS4 trivial (by rfl)

lemma reachable_exC2 : Reachable exC2 :=
  Reachable.step exS1 exC2 (.createOffer 4 regR 1 0 1 0 0)
    reachable_exS1 trivial (by rfl)

lemma reachable_exC3 : Reachable exC3 :=
  Reachable.step exC2 exC3 (.cancelOffer 1 0 0)
    reachable_exC2 trivial (by rfl)

lemma reachable_exP2 : Reachable exP2 :=
  Reachable.step exS1 exP2 (.pause 1) reachable_exS1 trivial (by rfl)

/-- `exPW` arises from `exS4` by the owner pausing the desk. -/
lemma reachable_exPW : Reachable exPW :=
  Reachable.step exS4 exPW (.pause 1) reachable_exS4 trivial (by rfl)

/-- C2: in every reachable state, every offer record satisfies: `fulfilled`
and `cancelled` are never both set; `fulfilled` implies `paid`; and `paid`
implies a positive `amount_paid` and a non-default `payer`. -/
theorem c2_offer_record_invariants :
    ∀ s, Reachable s → ∀ o ∈ s.offers,
      ¬ (o.fulfilled = true ∧ o.cancelled = true) ∧
      (o.fulfilled = true → o.paid = true) ∧
      (o.paid = true → 0 < o.amount_paid ∧ o.payer ≠ 0) := by
  intro s hs o hmem
  obtain ⟨-, -, hoff, -⟩ := inv_of_reachable hs
  obtain ⟨h1, h2, h3, -⟩ := hoff o hmem
  exact ⟨fun hb => absurd hb.2 (by simp [h2 hb.1]), h1, h3⟩

/-- Witness for C2 at the reachable state `exS5`, which contains a paid
offer. -/
theorem c2_witness :
    Reachable exS5 ∧
    (∀ o ∈ exS5.offers,
      ¬ (o.fulfilled = true ∧ o.cancelled = true) ∧
      (o.fulfilled = true → o.paid = true) ∧
      (o.paid = true → 0 < o.amount_paid ∧ o.payer ≠ 0)) :=
  ⟨reachable_exS5, c2_offer_record_invariants exS5 reachable_exS5⟩


/-! ### C5: standalone offers stay unapproved and unpaid -/

lemma getElem?_some_lt {α : Type} {l : List α} {i : Nat} {a : α}
    (h : l[i]? = some a) : i < l.length := by
  by_contra hn
  rw [List.getElem?_eq_none (by omega)] at h
  cases h

lemma getElem?_append_left {α : Type} {l l2 : List α} {i : Nat} {a : α}
    (h : l[i]? = some a) : (l ++ l2)[i]? = some a := by
  rw [List.getElem?_append, if_pos (getElem?_some_lt h)]
  exact h

lemma getElem?_set_other {α : Type} {l : List α} {j i : Nat} {x a : α}
    (h : l[i]? = some a) (hne : j ≠ i) : (l.set j x)[i]? = some a := by
  rw [List.getElem?_set, if_neg hne]
  exact h

lemma getElem?_set_same {α : Type} {l : List α} {i : Nat} {x a : α}
    (h : l[i]? = some a) : (l.set i x)[i]? = some x := by
  rw [List.getElem?_set, if_pos rfl, if_pos (getElem?_some_lt h)]

/-- One step preserves "this offer slot holds a never-approved standalone
offer": the only instruction that could set `approved` requires a
consignment account whose id equals the offer's `consignment_id`, and every
consignment id is at least 1. -/
lemma standalone_step {s s' : OtcState} {op : Op} (hi : Inv s)
    (h : applyOp op s = .ok s') {oi : Nat} {o : Offer}
    (ho : s.offers[oi]? = some o) (hcid : o.consignment_id = 0)
    (hap : o.approved = false) (hpd : o.paid = false) :
    ∃ o', s'.offers[oi]? = some o' ∧ o'.consignment_id = 0 ∧
      o'.approved = false ∧ o'.paid = false := by
  cases op with
  | transferOwner caller x =>
    obtain ⟨he, -, -, -⟩ := transfer_owner_deskOnly h
    exact ⟨o, by rw [he]; exact ho, hcid, hap, hpd⟩
  | setPrices caller t sol ma now =>
    obtain ⟨he, -, -, -⟩ := set_prices_deskOnly h
    exact ⟨o, by rw [he]; exact ho, hcid, hap, hpd⟩
  | setLimits caller m mt q d ml =>
    obtain ⟨he, -, -, -⟩ := set_limits_deskOnly h
    exact ⟨o, by rw [he]; exact ho, hcid, hap, hpd⟩
  | setAgent caller a =>
    obtain ⟨he, -, -, -⟩ := set_agent_deskOnly h
    exact ⟨o, by rw [he]; exact ho, hcid, hap, hpd⟩
  | setRestrictFulfill caller e =>
    obtain ⟨he, -, -, -⟩ := set_restrict_fulfill_deskOnly h
    exact ⟨o, by rw [he]; exact ho, hcid, hap, hpd⟩
  | pause caller =>
    obtain ⟨he, -, -, -⟩ := pauseDesk_deskOnly h
    exact ⟨o, by rw [he]; exact ho, hcid, hap, hpd⟩
  | unpause caller =>
    obtain ⟨he, -, -, -⟩ := unpauseDesk_deskOnly h
    exact ⟨o, by rw [he]; exact ho, hcid, hap, hpd⟩
  | setApprover caller who allowed =>
    obtain ⟨he, -, -, -⟩ := set_approver_deskOnly h
    exact ⟨o, by rw [he]; exact ho, hcid, hap, hpd⟩
  | setEmergencyRefund caller e d =>
    obtain ⟨he, -, -, -⟩ := set_emergency_refund_deskOnly h
    exact ⟨o, by rw [he]; exact ho, hcid, hap, hpd⟩
  | setP2pCommission caller bps =>
    obtain ⟨he, -, -, -⟩ := set_p2p_commission_deskOnly h
    exact ⟨o, by rw [he]; exact ho, hcid, hap, hpd⟩
  | createConsignment cg tm a neg fd fl mind maxd minl maxl mina maxa fr pr
      vol exec now =>
    obtain ⟨-, -, rfl⟩ := create_consignment_ok_elim h
    exact ⟨o, ho, hcid, hap, hpd⟩
  | createOffer b reg ta d cur lockup now =>
    obtain ⟨usd, -, -, -, rfl⟩ := create_offer_ok_elim h
    exact ⟨o, getElem?_append_left ho, hcid, hap, hpd⟩
  | createOfferFromConsignment b ci reg cid ta d cur lockup acb now =>
    obtain ⟨c, comm, usd, -, -, -, -, -, rfl⟩ :=
      create_offer_from_consignment_ok_elim h
    exact ⟨o, getElem?_append_left ho, hcid, hap, hpd⟩
  | withdrawConsignment cg ci =>
    obtain ⟨c, -, -, -, -, rfl⟩ := withdraw_consignment_ok_elim h
    exact ⟨o, ho, hcid, hap, hpd⟩
  | approveOffer ap oi2 ci =>
    obtain ⟨o2, c, ho2, hc2, hid, -, -, -, -, -, rfl⟩ :=
      approve_offer_ok_elim h
    by_cases hne : oi2 = oi
    · subst hne
      rw [ho] at ho2
      rw [← Option.some.inj ho2] at hid
      have := hi.2.2.2 c (List.getElem?_mem hc2)
      omega
    · exact ⟨o, getElem?_set_other ho hne, hcid, hap, hpd⟩
  | cancelOffer caller oi2 now =>
    obtain ⟨o2, ho2, -, -, -, rfl⟩ := cancel_offer_ok_elim h
    by_cases hne : oi2 = oi
    · subst hne
      rw [ho] at ho2
      rw [← Option.some.inj ho2]
      exact ⟨{ o with cancelled := true }, getElem?_set_same ho, hcid, hap,
        hpd⟩
    · exact ⟨o, getElem?_set_other ho hne, hcid, hap, hpd⟩
  | cancelOfferWithConsignment caller oi2 ci now =>
    obtain ⟨o2, c, ho2, -, -, -, -, -, -, hpos, -, rfl⟩ :=
      cancel_offer_with_consignment_ok_elim h
    by_cases hne : oi2 = oi
    · subst hne
      rw [ho] at ho2
      rw [← Option.some.inj ho2] at hpos
      omega
    · exact ⟨o, getElem?_set_other ho hne, hcid, hap, hpd⟩
  | fulfillOfferUsdc payer oi2 t ata now =>
    obtain ⟨o2, usd, amt, ho2, -, -, hap2, -, -, -, -, -, -, rfl⟩ :=
      fulfill_offer_usdc_ok_elim h
    by_cases hne : oi2 = oi
    · subst hne
      rw [ho] at ho2
      rw [← Option.some.inj ho2] at hap2
      rw [hap] at hap2
      cases hap2
    · exact ⟨o, getElem?_set_other ho hne, hcid, hap, hpd⟩
  | fulfillOfferSol payer oi2 t ag now =>
    obtain ⟨o2, usd, amt, ho2, -, -, hap2, -, -, -, -, -, -, -, rfl⟩ :=
      fulfill_offer_sol_ok_elim h
    by_cases hne : oi2 = oi
    · subst hne
      rw [ho] at ho2
      rw [← Option.some.inj ho2] at hap2
      rw [hap] at hap2
      cases hap2
    · exact ⟨o, getElem?_set_other ho hne, hcid, hap, hpd⟩
  | claim b oi2 now =>
    obtain ⟨o2, ho2, -, -, hpd2, -, -, -, rfl⟩ := claimOffer_ok_elim h
    by_cases hne : oi2 = oi
    · subst hne
      rw [ho] at ho2
      rw [← Option.some.inj ho2] at hpd2
      rw [hpd] at hpd2
      cases hpd2
    · exact ⟨o, getElem?_set_other ho hne, hcid, hap, hpd⟩
  | emergencyRefundSol caller oi2 now =>
    obtain ⟨o2, ho2, -, hpd2, -, -, -, -, -, rfl⟩ :=
      emergency_refund_sol_ok_elim h
    by_cases hne : oi2 = oi
    · subst hne
      rw [ho] at ho2
      rw [← Option.some.inj ho2] at hpd2
      rw [hpd] at hpd2
      cases hpd2
    · exact ⟨o, getElem?_set_other ho hne, hcid, hap, hpd⟩
  | emergencyRefundUsdc caller oi2 now =>
    obtain ⟨o2, ho2, -, hpd2, -, -, -, -, -, rfl⟩ :=
      emergency_refund_usdc_ok_elim h
    by_cases hne : oi2 = oi
    · subst hne
      rw [ho] at ho2
      rw [← Option.some.inj ho2] at hpd2
      rw [hpd] at hpd2
      cases hpd2
    · exact ⟨o, getElem?_set_other ho hne, hcid, hap, hpd⟩


/-- C5: an offer created by `create_offer` is standalone
(`consignment_id = 0`) and starts unapproved and unpaid; and in any
reachable execution a standalone unapproved offer can never become approved
(approval requires a consignment whose id equals the offer's
`consignment_id`, and consignment ids start at 1), hence it can never be
paid by the fulfill instructions, which require approval. -/
theorem c5_standalone_offers_never_approved_or_paid :
    (∀ s b reg ta d cur lockup now s',
      create_offer s b reg ta d cur lockup now = .ok s' →
      ∃ o, s'.offers[s.offers.length]? = some o ∧ o.consignment_id = 0 ∧
        o.approved = false ∧ o.paid = false) ∧
    (∀ s s', Reachable s → Relation.ReflTransGen StepRel s s' →
      ∀ (oi : Nat) (o : Offer), s.offers[oi]? = some o →
        o.consignment_id = 0 → o.approved = false → o.paid = false →
        ∃ o', s'.offers[oi]? = some o' ∧ o'.consignment_id = 0 ∧
          o'.approved = false ∧ o'.paid = false) := by
  constructor
  · intro s b reg ta d cur lockup now s' h
    obtain ⟨usd, -, -, -, rfl⟩ := create_offer_ok_elim h
    exact ⟨_, List.getElem?_concat_length _ _, rfl, rfl, rfl⟩
  · intro s s' hreach hstar oi o ho hcid hap hpd
    induction hstar with
    | refl => exact ⟨o, ho, hcid, hap, hpd⟩
    | tail hab hbc ih =>
      obtain ⟨o1, ho1, h1, h2, h3⟩ := ih
      obtain ⟨op, hsig, hok⟩ := hbc
      exact standalone_step
        (inv_of_reachable (reachable_of_star hreach hab)) hok ho1 h1 h2 h3

/-- Witness for C5: the standalone offer of `exC2` is created unapproved and
unpaid, and stays so across the cancellation step to `exC3`. -/
theorem c5_witness :
    (∃ o, exC2.offers[exS1.offers.length]? = some o ∧
      o.consignment_id = 0 ∧ o.approved = false ∧ o.paid = false) ∧
    (∃ o', exC3.offers[0]? = some o' ∧ o'.consignment_id = 0 ∧
      o'.approved = false ∧ o'.paid = false) :=
  ⟨c5_standalone_offers_never_approved_or_paid.1 exS1 4 regR 1 0 1 0 0 exC2
      (by rfl),
    c5_standalone_offers_never_approved_or_paid.2 exC2 exC3 reachable_exC2
      (Relation.ReflTransGen.single ⟨.cancelOffer 1 0 0, trivial, by rfl⟩)
      0 _ (by rfl) (by rfl) (by rfl) (by rfl)⟩


/-! ### C3: terminal offers are frozen -/

lemma offer_recancel_self {o : Offer} (h : o.cancelled = true) :
    ({ o with cancelled := true } : Offer) = o := by
  cases o
  simp_all

lemma list_set_self {α : Type} {l : List α} {i : Nat} {a : α}
    (h : l[i]? = some a) : l.set i a = l := by
  apply List.ext_getElem?
  intro j
  rw [List.getElem?_set]
  by_cases hij : i = j
  · subst hij
    rw [if_pos rfl, if_pos (getElem?_some_lt h)]
    exact h.symm
  · rw [if_neg hij]

/-- C3 as stated is wrong: `cancel_offer` does not check `offer.cancelled`,
so re-cancelling an unpaid cancelled offer succeeds.  In the reachable state
`exC3` offer 0 is cancelled, yet the owner's `cancel_offer` succeeds. -/
theorem c3_counterexample :
    Reachable exC3 ∧ exC3.offers[0]?.map Offer.cancelled = some true ∧
    (cancel_offer exC3 1 0 0).isOk = true :=
  ⟨reachable_exC3, by rfl, by rfl⟩

/-- C3 (amended): in a reachable state, no operation moves an offer out of
`Fulfilled` or `Cancelled`: on a fulfilled offer every lifecycle operation
fails, and on a cancelled offer every operation fails except `cancel_offer`
itself, which can re-cancel an unpaid cancelled offer but then leaves the
entire state unchanged. -/
theorem c3_terminal_offers_frozen :
    ∀ s, Reachable s → ∀ (oi : Nat) (o : Offer), s.offers[oi]? = some o →
      (o.fulfilled = true →
        (∀ ap ci, (approve_offer s ap oi ci).isOk = false) ∧
        (∀ caller now, (cancel_offer s caller oi now).isOk = false) ∧
        (∀ caller ci now,
          (cancel_offer_with_consignment s caller oi ci now).isOk = false) ∧
        (∀ payer t ata now,
          (fulfill_offer_usdc s payer oi t ata now).isOk = false) ∧
        (∀ payer t ag now,
          (fulfill_offer_sol s payer oi t ag now).isOk = false) ∧
        (∀ b now, (claimOffer s b oi now).isOk = false) ∧
        (∀ caller now,
          (emergency_refund_sol s caller oi now).isOk = false) ∧
        (∀ caller now,
          (emergency_refund_usdc s caller oi now).isOk = false)) ∧
      (o.cancelled = true →
        (∀ ap ci, (approve_offer s ap oi ci).isOk = false) ∧
        (∀ caller ci now,
          (cancel_offer_with_consignment s caller oi ci now).isOk = false) ∧
        (∀ payer t ata now,
          (fulfill_offer_usdc s payer oi t ata now).isOk = false) ∧
        (∀ payer t ag now,
          (fulfill_offer_sol s payer oi t ag now).isOk = false) ∧
        (∀ b now, (claimOffer s b oi now).isOk = false) ∧
        (∀ caller now,
          (emergency_refund_sol s caller oi now).isOk = false) ∧
        (∀ caller now,
          (emergency_refund_usdc s caller oi now).isOk = false) ∧
        (∀ caller now s', cancel_offer s caller oi now = .ok s' →
          s' = s)) := by
  intro s hs oi o ho
  have hinv := inv_of_reachable hs
  constructor
  · intro hful
    have hpaid : o.paid = true := (offerOk_of_mem hinv ho).1 hful
    refine ⟨?_, ?_, ?_, ?_, ?_, ?_, ?_, ?_⟩
    · intro ap ci
      cases hx : approve_offer s ap oi ci with
      | error e => rfl
      | ok s' =>
        obtain ⟨o2, c, ho2, -, -, -, -, hp2, -, -, -⟩ :=
          approve_offer_ok_elim hx
        rw [ho] at ho2
        rw [← Option.some.inj ho2, hpaid] at hp2
        cases hp2
    · intro caller now
      cases hx : cancel_offer s caller oi now with
      | error e => rfl
      | ok s' =>
        obtain ⟨o2, ho2, -, -, hf2, -⟩ := cancel_offer_ok_elim hx
        rw [ho] at ho2
        rw [← Option.some.inj ho2, hful] at hf2
        cases hf2
    · intro caller ci now
      cases hx : cancel_offer_with_consignment s caller oi ci now with
      | error e => rfl
      | ok s' =>
        obtain ⟨o2, c, ho2, -, -, -, -, hf2, -, -, -, -⟩ :=
          cancel_offer_with_consignment_ok_elim hx
        rw [ho] at ho2
        rw [← Option.some.inj ho2, hful] at hf2
        cases hf2
    · intro payer t ata now
      cases hx : fulfill_offer_usdc s payer oi t ata now with
      | error e => rfl
      | ok s' =>
        obtain ⟨o2, usd, amt, ho2, -, -, -, -, -, hf2, -, -, -, -⟩ :=
          fulfill_offer_usdc_ok_elim hx
        rw [ho] at ho2
        rw [← Option.some.inj ho2, hful] at hf2
        cases hf2
    · intro payer t ag now
      cases hx : fulfill_offer_sol s payer oi t ag now with
      | error e => rfl
      | ok s' =>
        obtain ⟨o2, usd, amt, ho2, -, -, -, -, -, hf2, -, -, -, -, -⟩ :=
          fulfill_offer_sol_ok_elim hx
        rw [ho] at ho2
        rw [← Option.some.inj ho2, hful] at hf2
        cases hf2
    · intro b now
      cases hx : claimOffer s b oi now with
      | error e => rfl
      | ok s' =>
        obtain ⟨o2, ho2, -, -, -, -, hf2, -, -⟩ := claimOffer_ok_elim hx
        rw [ho] at ho2
        rw [← Option.some.inj ho2, hful] at hf2
        cases hf2
    · intro caller now
      cases hx : emergency_refund_sol s caller oi now with
      | error e => rfl
      | ok s' =>
        obtain ⟨o2, ho2, -, -, hf2, -, -, -, -, -⟩ :=
          emergency_refund_sol_ok_elim hx
        rw [ho] at ho2
        rw [← Option.some.inj ho2, hful] at hf2
        cases hf2
    · intro caller now
      cases hx : emergency_refund_usdc s caller oi now with
      | error e => rfl
      | ok s' =>
        obtain ⟨o2, ho2, -, -, hf2, -, -, -, -, -⟩ :=
          emergency_refund_usdc_ok_elim hx
        rw [ho] at ho2
        rw [← Option.some.inj ho2, hful] at hf2
        cases hf2
  · intro hcanc
    refine ⟨?_, ?_, ?_, ?_, ?_, ?_, ?_, ?_⟩
    · intro ap ci
      cases hx : approve_offer s ap oi ci with
      | error e => rfl
      | ok s' =>
        obtain ⟨o2, c, ho2, -, -, -, hc2, -, -, -, -⟩ :=
          approve_offer_ok_elim hx
        rw [ho] at ho2
        rw [← Option.some.inj ho2, hcanc] at hc2
        cases hc2
    · intro caller ci now
      cases hx : cancel_offer_with_consignment s caller oi ci now with
      | error e => rfl
      | ok s' =>
        obtain ⟨o2, c, ho2, -, -, -, -, -, hc2, -, -, -⟩ :=
          cancel_offer_with_consignment_ok_elim hx
        rw [ho] at ho2
        rw [← Option.some.inj ho2, hcanc] at hc2
        cases hc2
    · intro payer t ata now
      cases hx : fulfill_offer_usdc s payer oi t ata now with
      | error e => rfl
      | ok s' =>
        obtain ⟨o2, usd, amt, ho2, -, -, -, hc2, -, -, -, -, -, -⟩ :=
          fulfill_offer_usdc_ok_elim hx
        rw [ho] at ho2
        rw [← Option.some.inj ho2, hcanc] at hc2
        cases hc2
    · intro payer t ag now
      cases hx : fulfill_offer_sol s payer oi t ag now with
      | error e => rfl
      | ok s' =>
        obtain ⟨o2, usd, amt, ho2, -, -, -, hc2, -, -, -, -, -, -, -⟩ :=
          fulfill_offer_sol_ok_elim hx
        rw [ho] at ho2
        rw [← Option.some.inj ho2, hcanc] at hc2
        cases hc2
    · intro b now
      cases hx : claimOffer s b oi now with
      | error e => rfl
      | ok s' =>
        obtain ⟨o2, ho2, -, -, -, hc2, -, -, -⟩ := claimOffer_ok_elim hx
        rw [ho] at ho2
        rw [← Option.some.inj ho2, hcanc] at hc2
        cases hc2
    · intro caller now
      cases hx : emergency_refund_sol s caller oi now with
      | error e => rfl
      | ok s' =>
        obtain ⟨o2, ho2, -, -, -, hc2, -, -, -, -⟩ :=
          emergency_refund_sol_ok_elim hx
        rw [ho] at ho2
        rw [← Option.some.inj ho2, hcanc] at hc2
        cases hc2
    · intro caller now
      cases hx : emergency_refund_usdc s caller oi now with
      | error e => rfl
      | ok s' =>
        obtain ⟨o2, ho2, -, -, -, hc2, -, -, -, -⟩ :=
          emergency_refund_usdc_ok_elim hx
        rw [ho] at ho2
        rw [← Option.some.inj ho2, hcanc] at hc2
        cases hc2
    · intro caller now s' hx
      obtain ⟨o2, ho2, -, -, -, rfl⟩ := cancel_offer_ok_elim hx
      rw [ho] at ho2
      rw [← Option.some.inj ho2]
      rw [offer_recancel_self hcanc, list_set_self ho]


/-- Witness for C3 at the reachable state `exC3` whose offer 0 is
cancelled. -/
theorem c3_witness :
    Reachable exC3 ∧
    (∀ ap ci, (approve_offer exC3 ap 0 ci).isOk = false) ∧
    (∀ caller now s', cancel_offer exC3 caller 0 now = .ok s' →
      s' = exC3) :=
  ⟨reachable_exC3,
    ((c3_terminal_offers_frozen exC3 reachable_exC3 0
        { consignment_id := 0
          token_mint := 7
          token_decimals := 0
          id := 1
          beneficiary := 4
          token_amount := 1
          discount_bps := 0
          created_at := 0
          unlock_time := 0
          price_usd_per_token_8d := 100000000
          max_price_deviation_bps := 0
          sol_usd_price_8d := 0
          currency := 1
          approved := false
          paid := false
          fulfilled := false
          cancelled := true
          payer := 0
          amount_paid := 0
          agent_commission_bps := 0 } (by rfl)).2 (by rfl)).1,
    ((c3_terminal_offers_frozen exC3 reachable_exC3 0
        { consignment_id := 0
          token_mint := 7
          token_decimals := 0
          id := 1
          beneficiary := 4
          token_amount := 1
          discount_bps := 0
          created_at := 0
          unlock_time := 0
          price_usd_per_token_8d := 100000000
          max_price_deviation_bps := 0
          sol_usd_price_8d := 0
          currency := 1
          approved := false
          paid := false
          fulfilled := false
          cancelled := true
          payer := 0
          amount_paid := 0
          agent_commission_bps := 0 } (by rfl)).2 (by rfl)).2.2.2.2.2.2.2⟩


/-! ### C4: what the pause flag does and does not block -/

/-- C4 as stated is wrong: neither price updates nor consignment withdrawal
are blocked by the pause flag.  On the reachable paused state `exP2` the
owner's `set_prices` succeeds and mutates the desk, and on the reachable
paused state `exPW` the consigner's `withdraw_consignment` succeeds. -/
theorem c4_counterexample :
    Reachable exP2 ∧ exP2.desk.paused = true ∧
    set_prices exP2 1 100000000 100000000 3600 5 = .ok exP3 ∧
    exP3 ≠ exP2 ∧
    Reachable exPW ∧ exPW.desk.paused = true ∧
    (withdraw_consignment exPW 3 1).isOk = true :=
  ⟨reachable_exP2, by rfl, by rfl, by decide, reachable_exPW, by rfl, by rfl⟩

/-- C4 (amended): while the desk is paused, consignment creation, offer
creation (standalone and from consignment), approval, cancellation (both
forms), fulfillment (both currencies) and claim all fail with `Paused` and
leave the state unchanged; price updates, emergency refunds, withdrawals and
configuration changes are not gated on the pause flag. -/
theorem c4_pause_blocks_lifecycle_ops :
    ∀ s, s.desk.paused = true →
      (∀ cg tm a neg fd fl mind maxd minl maxl mina maxa fr pr vol exec now,
        create_consignment s cg tm a neg fd fl mind maxd minl maxl mina maxa
          fr pr vol exec now = .error .Paused) ∧
      (∀ b reg ta d cur lockup now,
        create_offer s b reg ta d cur lockup now = .error .Paused) ∧
      (∀ b ci reg cid ta d cur lockup acb now c,
        s.consignments[ci]? = some c →
        create_offer_from_consignment s b ci reg cid ta d cur lockup acb now
          = .error .Paused) ∧
      (∀ ap oi ci o c, s.offers[oi]? = some o →
        s.consignments[ci]? = some c → c.id = o.consignment_id →
        approve_offer s ap oi ci = .error .Paused) ∧
      (∀ caller oi now (o : Offer), s.offers[oi]? = some o →
        cancel_offer s caller oi now = .error .Paused) ∧
      (∀ caller oi ci now o c, s.offers[oi]? = some o →
        s.consignments[ci]? = some c → c.id = o.consignment_id →
        cancel_offer_with_consignment s caller oi ci now =
          .error .Paused) ∧
      (∀ payer oi t ata now (o : Offer), s.offers[oi]? = some o →
        fulfill_offer_usdc s payer oi t ata now = .error .Paused) ∧
      (∀ payer oi t ag now (o : Offer), s.offers[oi]? = some o →
        fulfill_offer_sol s payer oi t ag now = .error .Paused) ∧
      (∀ b oi now (o : Offer), s.offers[oi]? = some o →
        claimOffer s b oi now = .error .Paused) := by
  intro s hp
  refine ⟨?_, ?_, ?_, ?_, ?_, ?_, ?_, ?_, ?_⟩
  · intro cg tm a neg fd fl mind maxd minl maxl mina maxa fr pr vol exec now
    unfold create_consignment
    rw [if_pos hp]
  · intro b reg ta d cur lockup now
    unfold create_offer
    rw [if_pos hp]
  · intro b ci reg cid ta d cur lockup acb now c hc
    unfold create_offer_from_consignment
    simp only [hc]
    rw [if_pos hp]
  · intro ap oi ci o c ho hc hid
    unfold approve_offer
    simp only [ho, hc]
    rw [if_neg (not_not_intro hid), if_pos hp]
  · intro caller oi now o ho
    unfold cancel_offer
    simp only [ho]
    rw [if_pos hp]
  · intro caller oi ci now o c ho hc hid
    unfold cancel_offer_with_consignment
    simp only [ho, hc]
    rw [if_neg (not_not_intro hid), if_pos hp]
  · intro payer oi t ata now o ho
    unfold fulfill_offer_usdc
    simp only [ho]
    rw [if_pos hp]
  · intro payer oi t ag now o ho
    unfold fulfill_offer_sol
    simp only [ho]
    rw [if_pos hp]
  · intro b oi now o ho
    unfold claimOffer
    simp only [ho]
    rw [if_pos hp]

/-- Witness for C4 on the paused state `exPW` (one offer, its consignment at
position 1). -/
theorem c4_witness :
    exPW.desk.paused = true ∧
    create_offer exPW 4 regR 1 0 1 0 0 = .error .Paused ∧
    approve_offer exPW 2 0 1 = .error .Paused ∧
    claimOffer exPW 4 0 0 = .error .Paused :=
  ⟨by rfl,
    (c4_pause_blocks_lifecycle_ops exPW (by rfl)).2.1 4 regR 1 0 1 0 0,
    (c4_pause_blocks_lifecycle_ops exPW (by rfl)).2.2.2.1 2 0 1 _ _ (by rfl)
      (by rfl) (by rfl),
    (c4_pause_blocks_lifecycle_ops exPW (by rfl)).2.2.2.2.2.2.2.2 4 0 0 _
      (by rfl)⟩


/-! ### C1: the emergency-refund time gate -/

/-- C1 as stated is wrong: the source accepts `now >= deadline ||
now >= unlock_deadline`, i.e. the *earlier* of the two deadlines, not the
later.  In the reachable state `exS6` (deadline 100 seconds, unlock deadline
30 days) a refund at `now = 100` succeeds although 100 is strictly before
the claimed maximum. -/
theorem c1_counterexample :
    Reachable exS6 ∧
    (100 : Int) < max ((0 : Int) + 100) ((0 : Int) + 30 * 86400) ∧
    exS6.offers[0]?.map Offer.created_at = some 0 ∧
    exS6.offers[0]?.map Offer.unlock_time = some 0 ∧
    exS6.desk.emergency_refund_deadline_secs = 100 ∧
    (emergency_refund_sol exS6 5 0 100).isOk = true :=
  ⟨reachable_exS6, by decide, by rfl, by rfl, by rfl, by rfl⟩

/-- C1 (amended): an emergency refund (SOL or USDC) succeeds only when the
desk's emergency-refund flag is enabled, the offer satisfies
`paid ∧ ¬fulfilled ∧ ¬cancelled`, the caller is the payer, beneficiary,
owner, agent or an approver, and `now` is at or past
`min(created_at + emergency_refund_deadline, unlock_time + 30 days)`; a call
strictly before that minimum (with both deadline sums within `i64` range)
fails with `TooEarlyForRefund` and, being an error, leaves the offer
unchanged. -/
theorem c1_emergency_refund_conditions :
    (∀ s caller oi now s',
      emergency_refund_sol s caller oi now = .ok s' →
      ∃ o, s.offers[oi]? = some o ∧
        s.desk.emergency_refund_enabled = true ∧
        o.paid = true ∧ o.fulfilled = false ∧ o.cancelled = false ∧
        (caller = o.payer ∨ caller = o.beneficiary ∨
          caller = s.desk.owner ∨ caller = s.desk.agent ∨
          caller ∈ s.desk.approvers) ∧
        now ≥ min (o.created_at + s.desk.emergency_refund_deadline_secs)
          (o.unlock_time + 30 * 86400)) ∧
    (∀ s caller oi now s',
      emergency_refund_usdc s caller oi now = .ok s' →
      ∃ o, s.offers[oi]? = some o ∧
        s.desk.emergency_refund_enabled = true ∧
        o.paid = true ∧ o.fulfilled = false ∧ o.cancelled = false ∧
        (caller = o.payer ∨ caller = o.beneficiary ∨
          caller = s.desk.owner ∨ caller = s.desk.agent ∨
          caller ∈ s.desk.approvers) ∧
        now ≥ min (o.created_at + s.desk.emergency_refund_deadline_secs)
          (o.unlock_time + 30 * 86400)) ∧
    (∀ s caller oi now (o : Offer), s.offers[oi]? = some o →
      s.desk.emergency_refund_enabled = true →
      o.paid = true → o.fulfilled = false → o.cancelled = false →
      o.currency = 0 →
      I64MIN ≤ o.created_at + s.desk.emergency_refund_deadline_secs →
      o.created_at + s.desk.emergency_refund_deadline_secs ≤ I64MAX →
      I64MIN ≤ o.unlock_time + 30 * 86400 →
      o.unlock_time + 30 * 86400 ≤ I64MAX →
      now < min (o.created_at + s.desk.emergency_refund_deadline_secs)
        (o.unlock_time + 30 * 86400) →
      emergency_refund_sol s caller oi now = .error .TooEarlyForRefund) ∧
    (∀ s caller oi now (o : Offer), s.offers[oi]? = some o →
      s.desk.emergency_refund_enabled = true →
      o.paid = true → o.fulfilled = false → o.cancelled = false →
      o.currency = 1 →
      I64MIN ≤ o.created_at + s.desk.emergency_refund_deadline_secs →
      o.created_at + s.desk.emergency_refund_deadline_secs ≤ I64MAX →
      I64MIN ≤ o.unlock_time + 30 * 86400 →
      o.unlock_time + 30 * 86400 ≤ I64MAX →
      now < min (o.created_at + s.desk.emergency_refund_deadline_secs)
        (o.unlock_time + 30 * 86400) →
      emergency_refund_usdc s caller oi now = .error .TooEarlyForRefund)
    := by
  refine ⟨?_, ?_, ?_, ?_⟩
  · intro s caller oi now s' h
    obtain ⟨o, ho, hen, hp, hf, hc, -, htime, hauth, -⟩ :=
      emergency_refund_sol_ok_elim h
    refine ⟨o, ho, hen, hp, hf, hc, hauth, ?_⟩
    rcases htime with htime | htime
    · exact le_trans (min_le_left _ _) htime
    · exact le_trans (min_le_right _ _) htime
  · intro s caller oi now s' h
    obtain ⟨o, ho, hen, hp, hf, hc, -, htime, hauth, -⟩ :=
      emergency_refund_usdc_ok_elim h
    refine ⟨o, ho, hen, hp, hf, hc, hauth, ?_⟩
    rcases htime with htime | htime
    · exact le_trans (min_le_left _ _) htime
    · exact le_trans (min_le_right _ _) htime
  · intro s caller oi now o ho hen hp hf hc hcur hr1 hr2 hr3 hr4 hlt
    rw [lt_min_iff] at hlt
    unfold emergency_refund_sol
    simp only [ho]
    rw [if_neg (not_not_intro hen),
      if_neg (not_not_intro ⟨hp, by simp [hf], by simp [hc]⟩),
      if_neg (not_not_intro hcur),
      show checkedAddI64 o.created_at s.desk.emergency_refund_deadline_secs
        = .ok (o.created_at + s.desk.emergency_refund_deadline_secs) from by
          unfold checkedAddI64
          rw [if_pos ⟨hr1, hr2⟩]]
    rw [show checkedAddI64 o.unlock_time (30 * 86400)
        = .ok (o.unlock_time + 30 * 86400) from by
          unfold checkedAddI64
          rw [if_pos ⟨hr3, hr4⟩]]
    exact if_pos (by push_neg; exact hlt)
  · intro s caller oi now o ho hen hp hf hc hcur hr1 hr2 hr3 hr4 hlt
    rw [lt_min_iff] at hlt
    unfold emergency_refund_usdc
    simp only [ho]
    rw [if_neg (not_not_intro hen),
      if_neg (not_not_intro ⟨hp, by simp [hf], by simp [hc]⟩),
      if_neg (not_not_intro hcur),
      show checkedAddI64 o.created_at s.desk.emergency_refund_deadline_secs
        = .ok (o.created_at + s.desk.emergency_refund_deadline_secs) from by
          unfold checkedAddI64
          rw [if_pos ⟨hr1, hr2⟩]]
    rw [show checkedAddI64 o.unlock_time (30 * 86400)
        = .ok (o.unlock_time + 30 * 86400) from by
          unfold checkedAddI64
          rw [if_pos ⟨hr3, hr4⟩]]
    exact if_pos (by push_neg; exact hlt)

/-- Witness for C1: on `exS6` the payer's refund at time 100 succeeds (and
100 is past the earlier deadline), while a refund at time 50 fails with
`TooEarlyForRefund`. -/
theorem c1_witness :
    (∃ o, exS6.offers[0]? = some o ∧
      exS6.desk.emergency_refund_enabled = true ∧ o.paid = true ∧
      o.fulfilled = false ∧ o.cancelled = false ∧
      ((5 : Nat) = o.payer ∨ 5 = o.beneficiary ∨ 5 = exS6.desk.owner ∨
        5 = exS6.desk.agent ∨ 5 ∈ exS6.desk.approvers) ∧
      (100 : Int) ≥ min (o.created_at +
        exS6.desk.emergency_refund_deadline_secs)
        (o.unlock_time + 30 * 86400)) ∧
    emergency_refund_sol exS6 5 0 50 = .error .TooEarlyForRefund :=
  ⟨c1_emergency_refund_conditions.1 exS6 5 0 100 exRef (by rfl),
    c1_emergency_refund_conditions.2.2.1 exS6 5 0 50 _ (by rfl) (by rfl)
      (by rfl) (by rfl) (by rfl) (by rfl) (by decide) (by decide) (by decide)
      (by decide) (by decide)⟩

/-! ### C10: the consignment accounting bug -/

/-- C10: the claimed invariant `remaining_amount ≤ total_amount` is violated
by the code.  `create_offer_from_consignment` records the raw
`consignment_id` argument in the offer without checking it against the
debited consignment account, and `cancel_offer_with_consignment` then
restores the cancelled offer's tokens into whatever consignment carries the
recorded id: in the reachable state `exB5`, consignment 2 (total 5) holds
`remaining_amount = 15`. -/
theorem c10_consignment_invariant_violated :
    Reachable exB5 ∧
    exB5.consignments[1]?.map Consignment.total_amount = some 5 ∧
    exB5.consignments[1]?.map Consignment.remaining_amount = some 15 :=
  ⟨reachable_exB5, by rfl, by rfl⟩


end Otc
